import Mathlib

/-!
Verification development for the viral-kid reply-pipeline core.

The TypeScript route handlers and platform clients are shallowly embedded:
pure computations become Lean functions, every external effect (database
lookups, HTTP calls, the session, environment variables) is supplied by an
explicit environment record, and each handler becomes a function from that
environment to a result record carrying the HTTP status, the JSON body's
`replied` field, the appended log entries and flags recording which external
calls were attempted.

Conventions used throughout the embedding:
- JavaScript strings that are checked for truthiness (`null`, `undefined` or
  `""` are falsy) are modelled as `Option String`, with `none` standing for
  a null-or-empty value.
- `Date` values (millisecond timestamps) are modelled as `Int`.
- A fallible external call's outcome is an `Option` value supplied by the
  environment: `none` models a non-2xx response or a thrown exception.
- `Array.prototype.sort` with a numeric comparator is stable in JavaScript
  (ECMAScript 2019); it is embedded as `List.insertionSort`, which Mathlib
  proves stable and sorted.
-/

/-- The whitespace class used by JavaScript's `String.prototype.trim`
(restricted to the ASCII whitespace characters that can occur here). -/
def jsWs (c : Char) : Bool :=
  c == ' ' || c == '\t' || c == '\n' || c == '\r'

/-- Model of JavaScript's `s.trim()`. -/
def jsTrim (s : String) : String :=
  ⟨((s.toList.dropWhile jsWs).reverse.dropWhile jsWs).reverse⟩

/-- Helper for `jsSplitComma`: accumulates the current chunk in reverse. -/
def splitCommaAux : List Char → List Char → List (List Char)
  | [], acc => [acc.reverse]
  | c :: cs, acc =>
    if c == ',' then acc.reverse :: splitCommaAux cs []
    else splitCommaAux cs (c :: acc)

/-- Model of JavaScript's `s.split(",")`. -/
def jsSplitComma (s : String) : List String :=
  (splitCommaAux s.toList []).map fun l => ⟨l⟩

/-- Model of JavaScript's `s.slice(0, n)`. -/
def jsSlice (s : String) (n : Nat) : String := ⟨s.toList.take n⟩

/-- Model of `array.sort((a, b) => score(b) - score(a))`: a stable sort,
descending by `score`. -/
def sortDescBy (score : α → Int) (l : List α) : List α :=
  l.insertionSort fun a b => score b ≤ score a

/-- Maximum of `score` over a non-empty list (`0` for the empty list). -/
def maxScore (score : α → Int) : List α → Int
  | [] => 0
  | a :: as => as.foldl (fun m b => max m (score b)) (score a)

/-! ### Token refresh -/

/-- The credential fields handed to the Reddit run route's
`refreshTokenIfNeeded` (the access token is a guaranteed-present string by
the time it is called). -/
structure RedditCredsInput where
  clientId : String
  clientSecret : String
  accessToken : String
  refreshToken : Option String
  tokenExpiresAt : Option Int
deriving DecidableEq

/-- Body of a successful Reddit OAuth token refresh response. -/
structure OAuthTokenResp where
  access_token : String
  expires_in : Int
deriving DecidableEq

/-- Which exception the Reddit `refreshTokenIfNeeded` threw. -/
inductive RefreshError
  | noRefreshToken
  | refreshFailed
deriving DecidableEq

/-- Return-or-throw of the Reddit `refreshTokenIfNeeded`. -/
inductive RefreshResult
  | ok (token : String)
  | err (e : RefreshError)
deriving DecidableEq

/-- Outcome of the Reddit `refreshTokenIfNeeded`: the returned value (or the
thrown error), whether the token endpoint was called over the network, and
the credential patch (access token, new expiry) written to the database, if
any. -/
structure RefreshOutcome where
  result : RefreshResult
  networkCalled : Bool
  persisted : Option (String × Int)
deriving DecidableEq

/-- Checks `tokenExpiresAt && tokenExpiresAt > fiveMinutesFromNow`. -/
def tokenStillValid (now : Int) (tokenExpiresAt : Option Int) : Bool :=
  match tokenExpiresAt with
  | some t => decide (now + 5 * 60 * 1000 < t)
  | none => false

/-- The network-refresh tail of the Reddit `refreshTokenIfNeeded`: throws when
no refresh token is stored, otherwise posts the refresh grant and persists the
new access token and expiry. -/
def redditRefreshViaNetwork (now : Int) (c : RedditCredsInput)
    (tokenHttp : Option OAuthTokenResp) : RefreshOutcome :=
  match c.refreshToken with
  | none => { result := .err .noRefreshToken, networkCalled := false, persisted := none }
  | some _ =>
    match tokenHttp with
    | none => { result := .err .refreshFailed, networkCalled := true, persisted := none }
    | some d =>
      { result := .ok d.access_token
        networkCalled := true
        persisted := some (d.access_token, now + d.expires_in * 1000) }

/-- `refreshTokenIfNeeded` from the Reddit run route: reuse the stored access
token when its expiry lies more than five minutes in the future, otherwise
refresh through the OAuth token endpoint. -/
def redditRefreshTokenIfNeeded (now : Int) (c : RedditCredsInput)
    (tokenHttp : Option OAuthTokenResp) : RefreshOutcome :=
  if tokenStillValid now c.tokenExpiresAt then
    { result := .ok c.accessToken, networkCalled := false, persisted := none }
  else redditRefreshViaNetwork now c tokenHttp

/-- The credential fields handed to the YouTube client's
`refreshTokenIfNeeded`. -/
structure YTCredsInput where
  clientId : String
  clientSecret : String
  accessToken : Option String
  refreshToken : Option String
  tokenExpiresAt : Option Int
deriving DecidableEq

/-- Body of a successful Google OAuth token refresh response; Google may omit
the new refresh token. -/
structure GoogleTokenResp where
  access_token : String
  refresh_token : Option String
  expires_in : Int
deriving DecidableEq

/-- The `(accessToken, refreshToken, expiresAt)` triple the YouTube
`refreshTokenIfNeeded` returns on success. -/
structure YTTokens where
  accessToken : String
  refreshToken : String
  expiresAt : Int
deriving DecidableEq

/-- Outcome of the YouTube `refreshTokenIfNeeded`: `none` models the
function's `null` result. -/
structure YTRefreshOutcome where
  result : Option YTTokens
  networkCalled : Bool
deriving DecidableEq

/-- The network-refresh tail of the YouTube `refreshTokenIfNeeded`; when
Google omits a refresh token the stored one is retained. -/
def ytDoRefresh (now : Int) (storedRefreshToken : String)
    (tokenHttp : Option GoogleTokenResp) : YTRefreshOutcome :=
  match tokenHttp with
  | none => { result := none, networkCalled := true }
  | some d =>
    { result := some
        { accessToken := d.access_token
          refreshToken := d.refresh_token.getD storedRefreshToken
          expiresAt := now + d.expires_in * 1000 }
      networkCalled := true }

/-- `refreshTokenIfNeeded` from `src/lib/youtube/client`: returns `null`
immediately when either token is missing; reuses the stored tokens when the
expiry lies more than five minutes in the future. -/
def ytRefreshTokenIfNeeded (now : Int) (c : YTCredsInput)
    (tokenHttp : Option GoogleTokenResp) : YTRefreshOutcome :=
  match c.accessToken, c.refreshToken with
  | some tok, some rt =>
    match c.tokenExpiresAt with
    | some t =>
      if now + 5 * 60 * 1000 < t then
        { result := some { accessToken := tok, refreshToken := rt, expiresAt := t }
          networkCalled := false }
      else ytDoRefresh now rt tokenHttp
    | none => ytDoRefresh now rt tokenHttp
  | _, _ => { result := none, networkCalled := false }

/-! ### Candidates, eligibility filters, selection -/

/-- One Reddit search result (`RedditPost` in the run route). -/
structure RedditPost where
  id : String
  name : String
  title : String
  selftext : String
  author : String
  subreddit : String
  permalink : String
  ups : Int
  num_comments : Int
deriving DecidableEq

/-- The `eligiblePosts` filter from the Reddit run route. Note the source
reads `post.ups >= (redditConfig.minimumUpvotes || 10)`: a configured value
of `0` is falsy in JavaScript, so it is replaced by the default `10`. -/
def redditEligiblePosts (posts : List RedditPost) (repliedPostIds : List String)
    (minimumUpvotes : Int) (username : String) : List RedditPost :=
  posts.filter fun post =>
    decide (post.id ∉ repliedPostIds) &&
    decide ((if minimumUpvotes = 0 then 10 else minimumUpvotes) ≤ post.ups) &&
    (post.author != username) &&
    (post.author != "[deleted]")

/-- One fetched YouTube comment (`YouTubeComment` in the client). -/
structure YouTubeComment where
  commentId : String
  videoId : String
  videoTitle : String
  userComment : String
  authorName : String
  authorChannelId : String
  likeCount : Int
  publishedAt : Int
deriving DecidableEq

/-- The per-video likes filter from the YouTube run route:
`comments.filter((c) => c.likeCount >= minimumLikesCount)`. -/
def ytLikesFilter (minimumLikesCount : Int)
    (comments : List YouTubeComment) : List YouTubeComment :=
  comments.filter fun c => decide (minimumLikesCount ≤ c.likeCount)

/-- The already-replied filter from the YouTube run route. -/
def ytUnrepliedFilter (repliedCommentIds : List String)
    (comments : List YouTubeComment) : List YouTubeComment :=
  comments.filter fun c => decide (c.commentId ∉ repliedCommentIds)

/-- The composed YouTube eligibility filtering: likes threshold, then the
already-replied exclusion. The route applies no further predicate. -/
def ytEligibleComments (minimumLikesCount : Int) (repliedCommentIds : List String)
    (comments : List YouTubeComment) : List YouTubeComment :=
  ytUnrepliedFilter repliedCommentIds (ytLikesFilter minimumLikesCount comments)

/-- `sortedPosts = eligiblePosts.sort((a, b) => b.ups - a.ups)` followed by
`sortedPosts[0]`. -/
def redditSelect (eligible : List RedditPost) : Option RedditPost :=
  (sortDescBy (fun p => p.ups) eligible).head?

/-- `unrepliedComments.sort((a, b) => b.likeCount - a.likeCount)` followed by
`unrepliedComments[0]`. -/
def ytSelect (comments : List YouTubeComment) : Option YouTubeComment :=
  (sortDescBy (fun c => c.likeCount) comments).head?

/-! ### Reply generation -/

/-- The parsed body of an LLM chat-completion response:
`data.choices?.[0]?.message?.content`, when present. -/
structure LLMResp where
  content : Option String
deriving DecidableEq

/-- The result handling shared verbatim by both routes' `generateReplyWithLLM`:
throw on a non-2xx response, trim the content, throw if it is missing or
empty, and hard-truncate the reply with `.slice(0, 500)`. `none` models a
thrown error. -/
def generateReplyWithLLM (llmHttp : Option LLMResp) : Option String :=
  match llmHttp with
  | none => none
  | some data =>
    match data.content with
    | none => none
    | some c =>
      let reply := jsTrim c
      if reply.toList.isEmpty then none
      else some (jsSlice reply 500)

/-! ### Interaction pruning -/

/-- The fields of a stored Reddit interaction row that pruning consults. -/
structure RedditInteraction where
  id : String
  postId : String
  createdAt : Int
deriving DecidableEq

/-- Rows surviving the Reddit cleanup: `findMany(orderBy createdAt desc,
skip 100)` selects the rows to delete, so the newest 100 rows remain. -/
def redditPruneKept (interactions : List RedditInteraction) : List RedditInteraction :=
  (sortDescBy (fun r => r.createdAt) interactions).take 100

/-- Rows the Reddit cleanup deletes. -/
def redditPruneDeleted (interactions : List RedditInteraction) : List RedditInteraction :=
  (sortDescBy (fun r => r.createdAt) interactions).drop 100

/-- The fields of a stored YouTube interaction row that pruning consults. -/
structure YTInteraction where
  id : String
  commentId : String
  createdAt : Int
deriving DecidableEq

/-- Rows surviving the YouTube cleanup: `deleteMany(createdAt <
fourteenDaysAgo)` removes rows older than 14 days. -/
def ytPruneKept (now : Int) (interactions : List YTInteraction) : List YTInteraction :=
  interactions.filter fun r => decide (¬ r.createdAt < now - 14 * 24 * 60 * 60 * 1000)

/-- The keyword list built by `searchPosts`: comma-split, trimmed, empties
dropped; when it is empty the function returns `[]` without any network
call. -/
def redditKeywordList (keywords : String) : List String :=
  ((jsSplitComma keywords).map jsTrim).filter fun k => !k.toList.isEmpty

/-! ### The run routes as functions of an explicit environment -/

/-- Observable side effects of one run: appended log entries
(level, message — messages abbreviate the source's dynamic text), which
external calls were attempted, the text handed to the publish call, the
reply text written to the interaction store, whether the credentials row
was rewritten, and the author identity of the selected candidate. -/
structure RunTrace where
  logs : List (String × String) := []
  refreshHttpCalled : Bool := false
  fetchCalled : Bool := false
  llmCalled : Bool := false
  publishCalled : Bool := false
  publishedOk : Bool := false
  publishedText : Option String := none
  storedReply : Option String := none
  credsUpdated : Bool := false
  selectedAuthorId : Option String := none
deriving DecidableEq

/-- HTTP status, the body's `replied` field (absent on error bodies), and
the side-effect trace. -/
structure RunResult where
  status : Nat
  replied : Option Bool
  trace : RunTrace
deriving DecidableEq

/-- Stored Reddit credentials row (fields the run route reads). -/
structure RedditCredsRow where
  clientId : String
  clientSecret : String
  accessToken : Option String
  refreshToken : Option String
  tokenExpiresAt : Option Int
  username : String
deriving DecidableEq

/-- Stored Reddit configuration row (fields the run route reads). -/
structure RedditConfigRow where
  keywords : String
  timeRange : Option String
  minimumUpvotes : Int
deriving DecidableEq

/-- Stored OpenRouter credentials row (fields the run routes validate). -/
structure OpenRouterCredsRow where
  apiKey : Option String
  selectedModel : Option String
deriving DecidableEq

/-- The account row with its Reddit relations, as `db.account.find*`
returns it. -/
structure RedditAccountRow where
  userId : String
  redditCredentials : Option RedditCredsRow
  redditConfig : Option RedditConfigRow
  openRouterCredentials : Option OpenRouterCredsRow
deriving DecidableEq

/-- External world of one Reddit run request. -/
structure RedditEnv where
  accountIdPresent : Bool
  cronHeader : Option String
  cronSecretEnv : Option String
  session : Option String
  account : Option RedditAccountRow
  now : Int
  refreshHttp : Option OAuthTokenResp
  searchHttp : Option (List RedditPost)
  existingPostIds : List String
  llmHttp : Option LLMResp
  publishHttp : Option String
  storeOk : Bool
deriving DecidableEq

/-- `cronSecret && cronSecret === process.env.CRON_SECRET &&
process.env.CRON_SECRET` from the Reddit run route. -/
def isCronCall (header secretEnv : Option String) : Bool :=
  match header, secretEnv with
  | some h, some s => !h.toList.isEmpty && h == s && !s.toList.isEmpty
  | _, _ => false

/-- A 400 answer preceded by one error log, as the validation block
produces. -/
def err400log (msg : String) : RunResult :=
  { status := 400, replied := none, trace := { logs := [("error", msg)] } }

/-- Interaction-store step of the Reddit run: the upsert and cleanup sit in
their own try/catch; a storage failure is logged as a warning and the
success answer is returned regardless. -/
def redditRunRecord (env : RedditEnv) (generatedReply : String)
    (t : RunTrace) : RunResult :=
  let t :=
    if env.storeOk then { t with storedReply := some generatedReply }
    else { t with logs := t.logs ++
      [("warning", "Comment posted but failed to record in database")] }
  { status := 200, replied := some true, trace := t }

/-- Publish step of the Reddit run (`postComment`). -/
def redditRunPublish (env : RedditEnv) (generatedReply : String)
    (t : RunTrace) : RunResult :=
  let t := { t with publishCalled := true, publishedText := some generatedReply }
  match env.publishHttp with
  | none =>
    { status := 500, replied := none,
      trace := { t with logs := t.logs ++ [("error", "Failed to post comment")] } }
  | some _commentId =>
    let t := { t with publishedOk := true,
                      logs := t.logs ++ [("success", "Posted comment")] }
    redditRunRecord env generatedReply t

/-- Reply-generation step of the Reddit run. -/
def redditRunGenerate (env : RedditEnv) (t : RunTrace) : RunResult :=
  let t := { t with llmCalled := true }
  match generateReplyWithLLM env.llmHttp with
  | none =>
    { status := 500, replied := none,
      trace := { t with logs := t.logs ++ [("error", "LLM generation failed")] } }
  | some generatedReply =>
    let t := { t with logs := t.logs ++ [("info", "Generated reply")] }
    redditRunPublish env generatedReply t

/-- Filter/select tail of the Reddit run, applied to the fetched posts. -/
def redditRunFetchResults (env : RedditEnv) (cfg : RedditConfigRow)
    (creds : RedditCredsRow) (posts : List RedditPost) (t : RunTrace) : RunResult :=
  let t := { t with logs := t.logs ++ [("info", "Found posts for keywords")] }
  let eligiblePosts :=
    redditEligiblePosts posts env.existingPostIds cfg.minimumUpvotes creds.username
  if eligiblePosts.isEmpty then
    { status := 200, replied := some false,
      trace := { t with logs := t.logs ++ [("info", "No eligible posts found")] } }
  else
    match redditSelect eligiblePosts with
    | none =>
      { status := 200, replied := some false,
        trace := { t with logs := t.logs ++ [("info", "No eligible posts after sorting")] } }
    | some targetPost =>
      let t := { t with selectedAuthorId := some targetPost.author,
                        logs := t.logs ++ [("info", "Selected post")] }
      redditRunGenerate env t

/-- Search step of the Reddit run (`searchPosts`): with an empty keyword
list the function returns `[]` without any network call. -/
def redditRunSearch (env : RedditEnv) (cfg : RedditConfigRow)
    (creds : RedditCredsRow) (t : RunTrace) : RunResult :=
  if (redditKeywordList cfg.keywords).isEmpty then
    redditRunFetchResults env cfg creds [] t
  else
    let t := { t with fetchCalled := true }
    match env.searchHttp with
    | none =>
      { status := 500, replied := none,
        trace := { t with logs := t.logs ++ [("error", "Failed to search posts")] } }
    | some posts => redditRunFetchResults env cfg creds posts t

/-- Token step of the Reddit run: a thrown refresh error answers 401. -/
def redditRunToken (env : RedditEnv) (creds : RedditCredsRow)
    (cfg : RedditConfigRow) (token : String) : RunResult :=
  let t : RunTrace := { logs := [("info", "Starting Reddit pipeline")] }
  let r := redditRefreshTokenIfNeeded env.now
    { clientId := creds.clientId, clientSecret := creds.clientSecret,
      accessToken := token, refreshToken := creds.refreshToken,
      tokenExpiresAt := creds.tokenExpiresAt } env.refreshHttp
  let t := { t with refreshHttpCalled := r.networkCalled,
                    credsUpdated := r.persisted.isSome }
  match r.result with
  | .err _ =>
    { status := 401, replied := none,
      trace := { t with logs := t.logs ++ [("error", "Token refresh failed")] } }
  | .ok _accessToken => redditRunSearch env cfg creds t

/-- Credential/config validation block of the Reddit run (each failure
answers 400 after one error log). -/
def redditRunValidate (env : RedditEnv) (acct : RedditAccountRow) : RunResult :=
  match acct.redditCredentials with
  | none => err400log "Reddit OAuth not connected"
  | some creds =>
    match creds.accessToken with
    | none => err400log "Reddit OAuth not connected"
    | some token =>
      match acct.redditConfig with
      | none => err400log "No keywords configured"
      | some cfg =>
        if (jsTrim cfg.keywords).toList.isEmpty then err400log "No keywords configured"
        else
          match acct.openRouterCredentials with
          | none => err400log "OpenRouter API key not configured"
          | some orc =>
            match orc.apiKey with
            | none => err400log "OpenRouter API key not configured"
            | some _ =>
              match orc.selectedModel with
              | none => err400log "No LLM model selected"
              | some _ => redditRunToken env creds cfg token

/-- `POST /api/reddit/run`: cron-secret calls look the account up directly;
other calls need a session (else 401) and ownership (else the `findFirst`
misses and the route answers 404). -/
def redditRun (env : RedditEnv) : RunResult :=
  if !env.accountIdPresent then
    { status := 400, replied := none, trace := {} }
  else if isCronCall env.cronHeader env.cronSecretEnv then
    match env.account with
    | none => { status := 404, replied := none, trace := {} }
    | some acct => redditRunValidate env acct
  else
    match env.session with
    | none => { status := 401, replied := none, trace := {} }
    | some uid =>
      match env.account with
      | none => { status := 404, replied := none, trace := {} }
      | some acct =>
        if acct.userId == uid then redditRunValidate env acct
        else { status := 404, replied := none, trace := {} }

/-- Stored YouTube credentials row (fields the run route reads). -/
structure YTCredsRow where
  clientId : String
  clientSecret : String
  accessToken : Option String
  refreshToken : Option String
  tokenExpiresAt : Option Int
  channelId : Option String
deriving DecidableEq

/-- Stored YouTube configuration row (field the run route reads). -/
structure YTConfigRow where
  minimumLikesCount : Int
deriving DecidableEq

/-- The account row with its YouTube relations. -/
structure YTAccountRow where
  userId : String
  youtubeCredentials : Option YTCredsRow
  youtubeConfig : Option YTConfigRow
  openRouterCredentials : Option OpenRouterCredsRow
deriving DecidableEq

/-- One channel video together with its comment-fetch outcome (`none`
models the per-video fetch throwing; the loop then continues with the
other videos). -/
structure YTVideoFetch where
  videoId : String
  title : String
  comments : Option (List YouTubeComment)
deriving DecidableEq

/-- External world of one YouTube run request. The request's cron header
and session are carried here although the handler never reads either. -/
structure YTEnv where
  accountIdPresent : Bool
  cronHeader : Option String
  session : Option String
  account : Option YTAccountRow
  now : Int
  refreshHttp : Option GoogleTokenResp
  videosHttp : Option (List YTVideoFetch)
  repliedCommentIds : List String
  llmHttp : Option LLMResp
  publishHttp : Option String
  storeOk : Bool
deriving DecidableEq

/-- Interaction-store step of the YouTube run: the upsert and cleanup are
NOT wrapped in a local try/catch; a storage throw reaches the route's outer
catch, which answers 500 without appending any database log. -/
def ytRunRecord (env : YTEnv) (generatedReply : String) (t : RunTrace) : RunResult :=
  if env.storeOk then
    { status := 200, replied := some true,
      trace := { t with storedReply := some generatedReply } }
  else
    { status := 500, replied := none, trace := t }

/-- Publish step of the YouTube run (`postCommentReply`). -/
def ytRunPublish (env : YTEnv) (generatedReply : String) (t : RunTrace) : RunResult :=
  let t := { t with publishCalled := true, publishedText := some generatedReply }
  match env.publishHttp with
  | none =>
    { status := 500, replied := none,
      trace := { t with logs := t.logs ++ [("error", "YouTube API error")] } }
  | some _replyId =>
    let t := { t with publishedOk := true,
                      logs := t.logs ++ [("success", "Posted reply")] }
    ytRunRecord env generatedReply t

/-- Reply-generation step of the YouTube run. -/
def ytRunGenerate (env : YTEnv) (t : RunTrace) : RunResult :=
  let t := { t with llmCalled := true }
  match generateReplyWithLLM env.llmHttp with
  | none =>
    { status := 500, replied := none,
      trace := { t with logs := t.logs ++ [("error", "LLM error")] } }
  | some generatedReply =>
    let t := { t with logs := t.logs ++ [("info", "Generated reply")] }
    ytRunPublish env generatedReply t

/-- Comment gathering, filtering and selection of the YouTube run: per
video, failed comment fetches are skipped, fetched comments are filtered by
the likes threshold and concatenated; then already-replied comments are
dropped and the most-liked remaining comment is selected. -/
def ytRunComments (env : YTEnv) (minimumLikesCount : Int)
    (videos : List YTVideoFetch) (t : RunTrace) : RunResult :=
  let allComments := videos.foldl (fun acc v =>
    match v.comments with
    | some cs => acc ++ ytLikesFilter minimumLikesCount cs
    | none => acc) []
  if allComments.isEmpty then
    { status := 200, replied := some false,
      trace := { t with logs := t.logs ++
        [("warning", "No comments found matching criteria")] } }
  else
    let t := { t with logs := t.logs ++ [("info", "Found comments")] }
    let unrepliedComments := ytUnrepliedFilter env.repliedCommentIds allComments
    if unrepliedComments.isEmpty then
      { status := 200, replied := some false,
        trace := { t with logs := t.logs ++
          [("warning", "All found comments have been replied to")] } }
    else
      match ytSelect unrepliedComments with
      | none => { status := 500, replied := none, trace := t }
      | some bestComment =>
        let t := { t with selectedAuthorId := some bestComment.authorChannelId,
                          logs := t.logs ++ [("info", "Selected comment")] }
        ytRunGenerate env t

/-- Video-fetch step of the YouTube run (`fetchChannelVideos`). -/
def ytRunFetch (env : YTEnv) (minimumLikesCount : Int) (t : RunTrace) : RunResult :=
  let t := { t with fetchCalled := true }
  match env.videosHttp with
  | none =>
    { status := 500, replied := none,
      trace := { t with logs := t.logs ++ [("error", "Failed to fetch videos")] } }
  | some videos =>
    if videos.isEmpty then
      { status := 200, replied := some false,
        trace := { t with logs := t.logs ++ [("warning", "No videos found on channel")] } }
    else
      let t := { t with logs := t.logs ++ [("info", "Found videos")] }
      ytRunComments env minimumLikesCount videos t

/-- Token step of the YouTube run: a `null` refresh result answers 401; the
credentials row is rewritten only when the returned access token differs
from the stored one. -/
def ytRunToken (env : YTEnv) (creds : YTCredsRow) (ytCfg : Option YTConfigRow)
    (tokenStr : String) : RunResult :=
  let t : RunTrace := { logs := [("info", "YouTube pipeline started")] }
  let r := ytRefreshTokenIfNeeded env.now
    { clientId := creds.clientId, clientSecret := creds.clientSecret,
      accessToken := creds.accessToken, refreshToken := creds.refreshToken,
      tokenExpiresAt := creds.tokenExpiresAt } env.refreshHttp
  let t := { t with refreshHttpCalled := r.networkCalled }
  match r.result with
  | none =>
    { status := 401, replied := none,
      trace := { t with logs := t.logs ++
        [("error", "Failed to get valid access token")] } }
  | some tokens =>
    let t := if tokens.accessToken == tokenStr then t
             else { t with credsUpdated := true }
    let minimumLikesCount :=
      match ytCfg with
      | some cfg => cfg.minimumLikesCount
      | none => 5
    ytRunFetch env minimumLikesCount t

/-- Credential/config validation block of the YouTube run. -/
def ytRunValidate (env : YTEnv) (acct : YTAccountRow) : RunResult :=
  match acct.youtubeCredentials with
  | none => err400log "YouTube OAuth not connected"
  | some creds =>
    match creds.accessToken with
    | none => err400log "YouTube OAuth not connected"
    | some tokenStr =>
      match creds.channelId with
      | none => err400log "YouTube channel not linked"
      | some _ =>
        match acct.openRouterCredentials with
        | none => err400log "OpenRouter API key not configured"
        | some orc =>
          match orc.apiKey with
          | none => err400log "OpenRouter API key not configured"
          | some _ =>
            match orc.selectedModel with
            | none => err400log "No LLM model selected"
            | some _ => ytRunToken env creds acct.youtubeConfig tokenStr

/-- `POST /api/youtube/run`: the account is looked up by id alone — the
handler performs no cron-secret check and no session or ownership check. -/
def ytRun (env : YTEnv) : RunResult :=
  if !env.accountIdPresent then
    { status := 400, replied := none, trace := {} }
  else
    match env.account with
    | none => { status := 404, replied := none, trace := {} }
    | some acct => ytRunValidate env acct

/-! ### Concrete fixtures used by witnesses and counterexamples -/

/-- A Reddit search result with the given id, author and upvote count. -/
def samplePost (id author : String) (ups : Int) : RedditPost :=
  { id := id, name := "t3", title := "a title", selftext := "", author := author,
    subreddit := "test", permalink := "/r/test", ups := ups, num_comments := 0 }

/-- A YouTube comment whose author channel id is `author`. -/
def sampleComment (cid author : String) (likes : Int) : YouTubeComment :=
  { commentId := cid, videoId := "v1", videoTitle := "a video", userComment := "nice",
    authorName := author, authorChannelId := author, likeCount := likes, publishedAt := 0 }

/-- Complete OpenRouter credentials row. -/
def orcRow : OpenRouterCredsRow := { apiKey := some "key", selectedModel := some "m" }

/-- Connected Reddit credentials whose token is valid far beyond 5 minutes. -/
def redditCredsOk : RedditCredsRow :=
  { clientId := "cid", clientSecret := "sec", accessToken := some "tok",
    refreshToken := some "rtok", tokenExpiresAt := some 1000000000, username := "me" }

/-- Valid Reddit configuration row. -/
def redditCfgOk : RedditConfigRow :=
  { keywords := "lean", timeRange := some "day", minimumUpvotes := 1 }

/-- Fully configured Reddit account row. -/
def redditAcctOk : RedditAccountRow :=
  { userId := "u1", redditCredentials := some redditCredsOk,
    redditConfig := some redditCfgOk, openRouterCredentials := some orcRow }

/-- A Reddit run environment in which every stage succeeds (cron-originated
call, one eligible post, reply generated, publish and store succeed). -/
def redditHappyEnv : RedditEnv :=
  { accountIdPresent := true, cronHeader := some "s3", cronSecretEnv := some "s3",
    session := none, account := some redditAcctOk, now := 0,
    refreshHttp := none,
    searchHttp := some [samplePost "p1" "alice" 20],
    existingPostIds := [],
    llmHttp := some { content := some "  a reply  " },
    publishHttp := some "c1", storeOk := true }

/-- Same run but the interaction-store write throws. -/
def redditStoreFailEnv : RedditEnv := { redditHappyEnv with storeOk := false }

/-- Same run but the stored Reddit credentials row is absent. -/
def redditNoOAuthEnv : RedditEnv :=
  { redditHappyEnv with
    account := some { redditAcctOk with redditCredentials := none } }

/-- Credentials with no refresh token whose access token is still valid for
ten minutes. -/
def credsNoRefresh : RedditCredsInput :=
  { clientId := "cid", clientSecret := "sec", accessToken := "tok",
    refreshToken := none, tokenExpiresAt := some (10 * 60 * 1000) }

/-- A Reddit run whose credentials hold no refresh token but a
still-valid access token. -/
def redditCredsNoRefreshRow : RedditCredsRow :=
  { redditCredsOk with refreshToken := none, tokenExpiresAt := some (10 * 60 * 1000) }

def redditNoRefreshEnv : RedditEnv :=
  { redditHappyEnv with
    account := some { redditAcctOk with redditCredentials := some redditCredsNoRefreshRow } }

/-- Connected YouTube credentials (channel `UC1`) with a long-lived token. -/
def ytCredsOk : YTCredsRow :=
  { clientId := "cid", clientSecret := "sec", accessToken := some "tok",
    refreshToken := some "rtok", tokenExpiresAt := some 1000000000,
    channelId := some "UC1" }

/-- Fully configured YouTube account row. -/
def ytAcctOk : YTAccountRow :=
  { userId := "u1", youtubeCredentials := some ytCredsOk,
    youtubeConfig := some { minimumLikesCount := 5 },
    openRouterCredentials := some orcRow }

/-- A YouTube run environment in which every stage succeeds, with no cron
header and no session on the request. -/
def ytHappyEnv : YTEnv :=
  { accountIdPresent := true, cronHeader := none, session := none,
    account := some ytAcctOk, now := 0, refreshHttp := none,
    videosHttp := some [⟨"v1", "a video", some [sampleComment "c1" "UC_fan" 10]⟩],
    repliedCommentIds := [],
    llmHttp := some { content := some "  a reply  " },
    publishHttp := some "r1", storeOk := true }

/-- Same YouTube run but the interaction-store write throws. -/
def ytStoreFailEnv : YTEnv := { ytHappyEnv with storeOk := false }

/-- Same YouTube run but the only fetched comment is authored by the
account's own channel `UC1`. -/
def ytSelfEnv : YTEnv :=
  { ytHappyEnv with
    videosHttp := some [⟨"v1", "a video", some [sampleComment "c1" "UC1" 12]⟩] }

/-- 101 Reddit interaction rows with pairwise decreasing timestamps. -/
def pruneStore : List RedditInteraction :=
  (List.range 101).map fun i => { id := "r", postId := "p", createdAt := 100 - (i : Int) }

def redditInv (env : RedditEnv) (r : RunResult) : Prop :=
  (r.replied = none ∨ r.status = 200) ∧
  (∀ s, r.trace.publishedText = some s → generateReplyWithLLM env.llmHttp = some s) ∧
  (∀ s, r.trace.storedReply = some s → generateReplyWithLLM env.llmHttp = some s) ∧
  (r.trace.publishedOk = true →
    r.status = 200 ∧ r.replied = some true ∧
    (env.storeOk = false →
      ("warning", "Comment posted but failed to record in database") ∈ r.trace.logs))

def ytInv (env : YTEnv) (r : RunResult) : Prop :=
  (r.replied = none ∨ r.status = 200) ∧
  (∀ s, r.trace.publishedText = some s → generateReplyWithLLM env.llmHttp = some s) ∧
  (∀ s, r.trace.storedReply = some s → generateReplyWithLLM env.llmHttp = some s)

def redditUserEnv : RedditEnv :=
  { redditHappyEnv with cronHeader := none, session := none }

def ytCredsNoRefreshRow : YTCredsRow := { ytCredsOk with refreshToken := none }

def ytNoRefreshEnv : YTEnv :=
  { ytHappyEnv with
    account := some { ytAcctOk with youtubeCredentials := some ytCredsNoRefreshRow } }

def redditCredsExpiredRow : RedditCredsRow := { redditCredsOk with tokenExpiresAt := some 0 }

def redditRefreshFailEnv : RedditEnv :=
  { redditHappyEnv with
    account := some { redditAcctOk with redditCredentials := some redditCredsExpiredRow },
    refreshHttp := none }

def redditFetchFailEnv : RedditEnv := { redditHappyEnv with searchHttp := none }

def ytNoOAuthEnv : YTEnv :=
  { ytHappyEnv with account := some { ytAcctOk with youtubeCredentials := none } }

def redditNoConfigEnv : RedditEnv :=
  { redditHappyEnv with account := some { redditAcctOk with redditConfig := none } }

def redditBlankKeywordsCfg : RedditConfigRow := { redditCfgOk with keywords := "   " }

def redditBlankKeywordsEnv : RedditEnv :=
  { redditHappyEnv with
    account := some { redditAcctOk with redditConfig := some redditBlankKeywordsCfg } }

def orcNoKeyRow : OpenRouterCredsRow := { apiKey := none, selectedModel := some "m" }

def ytNoApiKeyEnv : YTEnv :=
  { ytHappyEnv with account := some { ytAcctOk with openRouterCredentials := some orcNoKeyRow } }

def redditLLMFailEnv : RedditEnv := { redditHappyEnv with llmHttp := none }

def redditPublishFailEnv : RedditEnv := { redditHappyEnv with publishHttp := none }

def ytFetchFailEnv : YTEnv := { ytHappyEnv with videosHttp := none }

def ytLLMFailEnv : YTEnv := { ytHappyEnv with llmHttp := none }

def ytPublishFailEnv : YTEnv := { ytHappyEnv with publishHttp := none }

/-- Error-to-500 bookkeeping for a Reddit run result: whenever the trace
shows a platform-search, LLM, or publish call was attempted and the
corresponding external outcome was a failure, the response status is 500. -/
def redditErrInv (env : RedditEnv) (r : RunResult) : Prop :=
  (r.trace.fetchCalled = true → env.searchHttp = none → r.status = 500) ∧
  (r.trace.llmCalled = true → generateReplyWithLLM env.llmHttp = none → r.status = 500) ∧
  (r.trace.publishCalled = true → env.publishHttp = none → r.status = 500)

/-- Error-to-500 bookkeeping for a YouTube run result: video-fetch, LLM and
publish failures are answered 500. -/
def ytErrInv (env : YTEnv) (r : RunResult) : Prop :=
  (r.trace.fetchCalled = true → env.videosHttp = none → r.status = 500) ∧
  (r.trace.llmCalled = true → generateReplyWithLLM env.llmHttp = none → r.status = 500) ∧
  (r.trace.publishCalled = true → env.publishHttp = none → r.status = 500)


theorem jsSlice_length_le (s : String) (n : Nat) : (jsSlice s n).length ≤ n := by
  have h : (jsSlice s n).length = (s.toList.take n).length := rfl
  rw [h, List.length_take]
  exact min_le_left _ _

theorem foldMax_max (score : α → Int) :
    ∀ (l : List α) (i j : Int),
      l.foldl (fun m b => max m (score b)) (max i j) =
        max i (l.foldl (fun m b => max m (score b)) j) := by
  intro l
  induction l with
  | nil => intro i j; rfl
  | cons b bs ih =>
    intro i j
    simp only [List.foldl_cons]
    rw [max_assoc, ih]

theorem maxScore_cons (score : α → Int) (a c : α) (cs : List α) :
    maxScore score (a :: c :: cs) = max (score a) (maxScore score (c :: cs)) := by
  simp only [maxScore, List.foldl_cons]
  rw [foldMax_max]

theorem le_maxScore_of_mem (score : α → Int) :
    ∀ {l : List α} {x : α}, x ∈ l → score x ≤ maxScore score l := by
  intro l
  induction l with
  | nil => intro x hx; cases hx
  | cons a as ih =>
    intro x hx
    cases as with
    | nil =>
      rcases List.mem_singleton.mp hx with rfl
      exact le_refl _
    | cons c cs =>
      rw [maxScore_cons]
      rcases List.mem_cons.mp hx with rfl | hmem
      · exact le_max_left _ _
      · exact le_trans (ih hmem) (le_max_right _ _)

theorem maxScore_mem (score : α → Int) :
    ∀ {l : List α}, l ≠ [] → ∃ y ∈ l, maxScore score l ≤ score y := by
  intro l
  induction l with
  | nil => intro h; exact absurd rfl h
  | cons a as ih =>
    intro _
    cases as with
    | nil => exact ⟨a, List.mem_singleton_self a, le_refl _⟩
    | cons c cs =>
      rcases ih (List.cons_ne_nil c cs) with ⟨y, hy, hley⟩
      rw [maxScore_cons]
      rcases le_total (score y) (score a) with h | h
      · exact ⟨a, List.mem_cons_self a _, max_le (le_refl _) (le_trans hley h)⟩
      · exact ⟨y, List.mem_cons_of_mem a hy, max_le h hley⟩

theorem find?_maxScore (score : α → Int) {l : List α} (hl : l ≠ []) :
    ∃ y, l.find? (fun x => decide (maxScore score l ≤ score x)) = some y ∧
      score y = maxScore score l ∧ y ∈ l := by
  obtain ⟨y0, hy0, hle⟩ := maxScore_mem score hl
  have hsome : (l.find? (fun x => decide (maxScore score l ≤ score x))).isSome := by
    rw [List.find?_isSome]
    exact ⟨y0, hy0, by simpa using hle⟩
  obtain ⟨y, hy⟩ := Option.isSome_iff_exists.mp hsome
  refine ⟨y, hy, ?_, List.mem_of_find?_eq_some hy⟩
  have hp := List.find?_some hy
  have h1 : maxScore score l ≤ score y := by simpa using hp
  exact le_antisymm (le_maxScore_of_mem score (List.mem_of_find?_eq_some hy)) h1

theorem sortDescBy_ne_nil (score : α → Int) {l : List α} (hl : l ≠ []) :
    sortDescBy score l ≠ [] := by
  intro h
  apply hl
  have hp := (List.perm_insertionSort (fun a b => score b ≤ score a) l).symm
  rw [sortDescBy] at h
  rw [h] at hp
  exact hp.eq_nil

theorem head_sortDescBy (score : α → Int) :
    ∀ l : List α,
      (sortDescBy score l).head? =
        l.find? (fun x => decide (maxScore score l ≤ score x)) := by
  intro l
  induction l with
  | nil => rfl
  | cons a as ih =>
    cases as with
    | nil =>
      simp [sortDescBy, List.insertionSort, List.orderedInsert, maxScore, List.find?]
    | cons c cs =>
      have hne : (c :: cs : List α) ≠ [] := List.cons_ne_nil c cs
      obtain ⟨y, hy, hysc, hymem⟩ := find?_maxScore score hne
      have hhead : (sortDescBy score (c :: cs)).head? = some y := by
        rw [ih]
        exact hy
      obtain ⟨t, ht⟩ : ∃ t, sortDescBy score (c :: cs) = y :: t := by
        cases hs : sortDescBy score (c :: cs) with
        | nil => rw [hs] at hhead; cases hhead
        | cons z t => rw [hs] at hhead; cases hhead; exact ⟨t, rfl⟩
      have hsort : sortDescBy score (a :: c :: cs) =
          List.orderedInsert (fun a b => score b ≤ score a) a (y :: t) := by
        rw [sortDescBy, List.insertionSort, ← sortDescBy, ht]
      by_cases hcase : score y ≤ score a
      · have hmax : maxScore score (a :: c :: cs) = score a := by
          rw [maxScore_cons, ← hysc]
          exact max_eq_left hcase
        rw [hsort, List.orderedInsert, if_pos hcase]
        rw [hmax]
        simp [List.find?]
      · have hlt : score a < score y := lt_of_not_le hcase
        have hmax : maxScore score (a :: c :: cs) = maxScore score (c :: cs) := by
          rw [maxScore_cons, ← hysc]
          exact max_eq_right (le_of_lt hlt)
        rw [hsort, List.orderedInsert, if_neg hcase]
        rw [List.find?_cons_of_neg _ (by rw [hmax, ← hysc]; simpa using hcase)]
        simp only [hmax]
        rw [← ih]
        rw [ht]
        rfl

theorem sortDescBy_head_spec (score : α → Int) (l : List α) (hl : l ≠ []) :
    ∃ c, (sortDescBy score l).head? = some c ∧ c ∈ l ∧ (∀ x ∈ l, score x ≤ score c) ∧
      l.find? (fun x => decide (score c ≤ score x)) = some c := by
  obtain ⟨y, hy, hysc, hymem⟩ := find?_maxScore score hl
  refine ⟨y, ?_, hymem, ?_, ?_⟩
  · rw [head_sortDescBy]; exact hy
  · intro x hx; rw [hysc]; exact le_maxScore_of_mem score hx
  · rw [hysc]; exact hy

theorem sortDescBy_sorted (score : α → Int) (l : List α) :
    (sortDescBy score l).Sorted fun a b => score b ≤ score a := by
  haveI : IsTotal α fun a b => score b ≤ score a := ⟨fun a b => le_total (score b) (score a)⟩
  haveI : IsTrans α fun a b => score b ≤ score a :=
    ⟨fun _ _ _ h1 h2 => le_trans h2 h1⟩
  exact List.sorted_insertionSort _ l

theorem sortDescBy_take_drop (score : α → Int) (l : List α) (n : Nat)
    {k d : α} (hk : k ∈ (sortDescBy score l).take n)
    (hd : d ∈ (sortDescBy score l).drop n) : score d ≤ score k := by
  have hs := sortDescBy_sorted score l
  rw [← List.take_append_drop n (sortDescBy score l)] at hs
  exact (List.pairwise_append.mp hs).2.2 k hk d hd

theorem redditRunRecord_inv (env : RedditEnv) (rep : String) (t : RunTrace)
    (hgen : generateReplyWithLLM env.llmHttp = some rep)
    (h1 : ∀ s, t.publishedText = some s → generateReplyWithLLM env.llmHttp = some s)
    (h2 : ∀ s, t.storedReply = some s → generateReplyWithLLM env.llmHttp = some s) :
    redditInv env (redditRunRecord env rep t) := by
  unfold redditInv redditRunRecord
  cases hs : env.storeOk with
  | true =>
    simp only [hs, if_true]
    exact ⟨Or.inr trivial, h1, fun s h => by cases h; exact hgen, by simp [hs]⟩
  | false =>
    simp only [hs, Bool.false_eq_true, if_false]
    exact ⟨Or.inr trivial, h1, h2, by simp⟩

theorem redditRunPublish_inv (env : RedditEnv) (rep : String) (t : RunTrace)
    (hgen : generateReplyWithLLM env.llmHttp = some rep)
    (h2 : ∀ s, t.storedReply = some s → generateReplyWithLLM env.llmHttp = some s)
    (h3 : t.publishedOk = false) :
    redditInv env (redditRunPublish env rep t) := by
  cases hp : env.publishHttp with
  | none =>
    simp only [redditRunPublish, hp]
    unfold redditInv
    exact ⟨Or.inl rfl, fun s h => by cases h; exact hgen, h2, by simp [h3]⟩
  | some cid =>
    simp only [redditRunPublish, hp]
    exact redditRunRecord_inv env rep _ hgen (fun s h => by cases h; exact hgen) h2

theorem redditRunGenerate_inv (env : RedditEnv) (t : RunTrace)
    (h1 : ∀ s, t.publishedText = some s → generateReplyWithLLM env.llmHttp = some s)
    (h2 : ∀ s, t.storedReply = some s → generateReplyWithLLM env.llmHttp = some s)
    (h3 : t.publishedOk = false) :
    redditInv env (redditRunGenerate env t) := by
  cases hg : generateReplyWithLLM env.llmHttp with
  | none =>
    simp only [redditRunGenerate, hg]
    unfold redditInv
    exact ⟨Or.inl rfl, h1, h2, by simp [h3]⟩
  | some rep =>
    simp only [redditRunGenerate, hg]
    exact redditRunPublish_inv env rep _ hg h2 h3

theorem redditRunFetchResults_inv (env : RedditEnv) (cfg : RedditConfigRow)
    (creds : RedditCredsRow) (posts : List RedditPost) (t : RunTrace)
    (h1 : ∀ s, t.publishedText = some s → generateReplyWithLLM env.llmHttp = some s)
    (h2 : ∀ s, t.storedReply = some s → generateReplyWithLLM env.llmHttp = some s)
    (h3 : t.publishedOk = false) :
    redditInv env (redditRunFetchResults env cfg creds posts t) := by
  simp only [redditRunFetchResults]
  split
  · unfold redditInv
    exact ⟨Or.inr rfl, h1, h2, by simp [h3]⟩
  · split
    · unfold redditInv
      exact ⟨Or.inr rfl, h1, h2, by simp [h3]⟩
    · exact redditRunGenerate_inv env _ h1 h2 h3

theorem redditRunSearch_inv (env : RedditEnv) (cfg : RedditConfigRow)
    (creds : RedditCredsRow) (t : RunTrace)
    (h1 : ∀ s, t.publishedText = some s → generateReplyWithLLM env.llmHttp = some s)
    (h2 : ∀ s, t.storedReply = some s → generateReplyWithLLM env.llmHttp = some s)
    (h3 : t.publishedOk = false) :
    redditInv env (redditRunSearch env cfg creds t) := by
  simp only [redditRunSearch]
  split
  · exact redditRunFetchResults_inv env cfg creds [] t h1 h2 h3
  · split
    · unfold redditInv
      exact ⟨Or.inl rfl, h1, h2, by simp [h3]⟩
    · exact redditRunFetchResults_inv env cfg creds _ _ h1 h2 h3

theorem redditRunToken_inv (env : RedditEnv) (creds : RedditCredsRow)
    (cfg : RedditConfigRow) (token : String) :
    redditInv env (redditRunToken env creds cfg token) := by
  simp only [redditRunToken]
  split
  · unfold redditInv
    exact ⟨Or.inl rfl, by simp, by simp, by simp⟩
  · exact redditRunSearch_inv env cfg creds _ (by simp) (by simp) (by simp)

theorem err400log_inv (env : RedditEnv) (msg : String) :
    redditInv env (err400log msg) := by
  unfold redditInv err400log
  exact ⟨Or.inl rfl, by simp, by simp, by simp⟩

theorem redditRunValidate_inv (env : RedditEnv) (acct : RedditAccountRow) :
    redditInv env (redditRunValidate env acct) := by
  simp only [redditRunValidate]
  repeat' split
  all_goals first
    | exact err400log_inv env _
    | exact redditRunToken_inv env _ _ _

theorem redditRun_inv (env : RedditEnv) : redditInv env (redditRun env) := by
  simp only [redditRun]
  repeat' split
  all_goals first
    | exact redditRunValidate_inv env _
    | (unfold redditInv; exact ⟨Or.inl rfl, by simp, by simp, by simp⟩)

theorem ytRunRecord_inv (env : YTEnv) (rep : String) (t : RunTrace)
    (hgen : generateReplyWithLLM env.llmHttp = some rep)
    (h1 : ∀ s, t.publishedText = some s → generateReplyWithLLM env.llmHttp = some s)
    (h2 : ∀ s, t.storedReply = some s → generateReplyWithLLM env.llmHttp = some s) :
    ytInv env (ytRunRecord env rep t) := by
  unfold ytInv ytRunRecord
  cases hs : env.storeOk with
  | true =>
    simp only [hs, if_true]
    exact ⟨Or.inr trivial, h1, fun s h => by cases h; exact hgen⟩
  | false =>
    simp only [hs, Bool.false_eq_true, if_false]
    exact ⟨Or.inl trivial, h1, h2⟩

theorem ytRunPublish_inv (env : YTEnv) (rep : String) (t : RunTrace)
    (hgen : generateReplyWithLLM env.llmHttp = some rep)
    (h2 : ∀ s, t.storedReply = some s → generateReplyWithLLM env.llmHttp = some s) :
    ytInv env (ytRunPublish env rep t) := by
  cases hp : env.publishHttp with
  | none =>
    simp only [ytRunPublish, hp]
    unfold ytInv
    exact ⟨Or.inl rfl, fun s h => by cases h; exact hgen, h2⟩
  | some rid =>
    simp only [ytRunPublish, hp]
    exact ytRunRecord_inv env rep _ hgen (fun s h => by cases h; exact hgen) h2

theorem ytRunGenerate_inv (env : YTEnv) (t : RunTrace)
    (h1 : ∀ s, t.publishedText = some s → generateReplyWithLLM env.llmHttp = some s)
    (h2 : ∀ s, t.storedReply = some s → generateReplyWithLLM env.llmHttp = some s) :
    ytInv env (ytRunGenerate env t) := by
  cases hg : generateReplyWithLLM env.llmHttp with
  | none =>
    simp only [ytRunGenerate, hg]
    unfold ytInv
    exact ⟨Or.inl rfl, h1, h2⟩
  | some rep =>
    simp only [ytRunGenerate, hg]
    exact ytRunPublish_inv env rep _ hg h2

theorem ytRunComments_inv (env : YTEnv) (m : Int) (videos : List YTVideoFetch)
    (t : RunTrace)
    (h1 : ∀ s, t.publishedText = some s → generateReplyWithLLM env.llmHttp = some s)
    (h2 : ∀ s, t.storedReply = some s → generateReplyWithLLM env.llmHttp = some s) :
    ytInv env (ytRunComments env m videos t) := by
  simp only [ytRunComments]
  repeat' split
  all_goals first
    | exact ytRunGenerate_inv env _ h1 h2
    | (unfold ytInv; exact ⟨Or.inr rfl, h1, h2⟩)
    | (unfold ytInv; exact ⟨Or.inl rfl, h1, h2⟩)

theorem ytRunFetch_inv (env : YTEnv) (m : Int) (t : RunTrace)
    (h1 : ∀ s, t.publishedText = some s → generateReplyWithLLM env.llmHttp = some s)
    (h2 : ∀ s, t.storedReply = some s → generateReplyWithLLM env.llmHttp = some s) :
    ytInv env (ytRunFetch env m t) := by
  simp only [ytRunFetch]
  repeat' split
  all_goals first
    | exact ytRunComments_inv env _ _ _ h1 h2
    | (unfold ytInv; exact ⟨Or.inr rfl, h1, h2⟩)
    | (unfold ytInv; exact ⟨Or.inl rfl, h1, h2⟩)

theorem ytRunToken_inv (env : YTEnv) (creds : YTCredsRow)
    (ytCfg : Option YTConfigRow) (tokenStr : String) :
    ytInv env (ytRunToken env creds ytCfg tokenStr) := by
  simp only [ytRunToken]
  repeat' split
  all_goals first
    | exact ytRunFetch_inv env _ _ (by simp) (by simp)
    | (unfold ytInv; exact ⟨Or.inl rfl, by simp, by simp⟩)

theorem ytErr400log_inv (env : YTEnv) (msg : String) :
    ytInv env (err400log msg) := by
  unfold ytInv err400log
  exact ⟨Or.inl rfl, by simp, by simp⟩

theorem ytRunValidate_inv (env : YTEnv) (acct : YTAccountRow) :
    ytInv env (ytRunValidate env acct) := by
  simp only [ytRunValidate]
  repeat' split
  all_goals first
    | exact ytErr400log_inv env _
    | exact ytRunToken_inv env _ _ _

theorem ytRun_inv (env : YTEnv) : ytInv env (ytRun env) := by
  simp only [ytRun]
  repeat' split
  all_goals first
    | exact ytRunValidate_inv env _
    | (unfold ytInv; exact ⟨Or.inl rfl, by simp, by simp⟩)

theorem ytRunRecord_credsUpd (env : YTEnv) (rep : String) (t : RunTrace) :
    (ytRunRecord env rep t).trace.credsUpdated = t.credsUpdated := by
  unfold ytRunRecord
  split <;> rfl

theorem ytRunPublish_credsUpd (env : YTEnv) (rep : String) (t : RunTrace) :
    (ytRunPublish env rep t).trace.credsUpdated = t.credsUpdated := by
  unfold ytRunPublish
  split
  · rfl
  · rw [ytRunRecord_credsUpd]

theorem ytRunGenerate_credsUpd (env : YTEnv) (t : RunTrace) :
    (ytRunGenerate env t).trace.credsUpdated = t.credsUpdated := by
  unfold ytRunGenerate
  split
  · rfl
  · rw [ytRunPublish_credsUpd]

theorem ytRunComments_credsUpd (env : YTEnv) (m : Int) (videos : List YTVideoFetch)
    (t : RunTrace) :
    (ytRunComments env m videos t).trace.credsUpdated = t.credsUpdated := by
  simp only [ytRunComments]
  repeat' split
  all_goals first | rfl | rw [ytRunGenerate_credsUpd]

theorem ytRunFetch_credsUpd (env : YTEnv) (m : Int) (t : RunTrace) :
    (ytRunFetch env m t).trace.credsUpdated = t.credsUpdated := by
  simp only [ytRunFetch]
  repeat' split
  all_goals first | rfl | rw [ytRunComments_credsUpd]

theorem generateReply_length_le : ∀ (llmHttp : Option LLMResp) (s : String),
    generateReplyWithLLM llmHttp = some s → s.length ≤ 500 := by
  intro llmHttp s h
  rcases llmHttp with _ | d
  · cases h
  · rcases hc : d.content with _ | c
    · simp [generateReplyWithLLM, hc] at h
    · simp only [generateReplyWithLLM, hc] at h
      simp at h
      rw [← h.2]
      exact jsSlice_length_le _ _

/-- Claim C8: for every non-empty eligible list, selection returns the head
of the stable descending sort: a member attaining the maximal engagement
score, and — under ties — the earliest such member in original fetch order
(it is the first list element whose score reaches the selected score). -/
theorem selection_deterministic_stable :
    (∀ l : List RedditPost, l ≠ [] →
      ∃ c, redditSelect l = some c ∧ c ∈ l ∧ (∀ x ∈ l, x.ups ≤ c.ups) ∧
        l.find? (fun x => decide (c.ups ≤ x.ups)) = some c) ∧
    (∀ l : List YouTubeComment, l ≠ [] →
      ∃ c, ytSelect l = some c ∧ c ∈ l ∧ (∀ x ∈ l, x.likeCount ≤ c.likeCount) ∧
        l.find? (fun x => decide (c.likeCount ≤ x.likeCount)) = some c) :=
  ⟨fun l hl => sortDescBy_head_spec (fun p : RedditPost => p.ups) l hl,
   fun l hl => sortDescBy_head_spec (fun c : YouTubeComment => c.likeCount) l hl⟩

theorem selection_deterministic_stable_witness :
    (([samplePost "x" "alice" 20, samplePost "y" "bob" 20] : List RedditPost) ≠ []) ∧
    (∃ c, redditSelect [samplePost "x" "alice" 20, samplePost "y" "bob" 20] = some c ∧
      c ∈ [samplePost "x" "alice" 20, samplePost "y" "bob" 20] ∧
      (∀ x ∈ [samplePost "x" "alice" 20, samplePost "y" "bob" 20], x.ups ≤ c.ups) ∧
      [samplePost "x" "alice" 20, samplePost "y" "bob" 20].find?
        (fun x => decide (c.ups ≤ x.ups)) = some c) :=
  ⟨by decide, selection_deterministic_stable.1 _ (by decide)⟩

/-- Claim C9: after a successful record, pruning keeps at most the newest
100 Reddit interaction rows (every deleted row is no newer than any kept
row, and kept rows come from the store), and YouTube pruning keeps exactly
the rows that are not older than 14 days. -/
theorem prune_retention_bounds :
    (∀ store : List RedditInteraction,
      (redditPruneKept store).length ≤ 100 ∧
      (∀ d ∈ redditPruneDeleted store, ∀ k ∈ redditPruneKept store,
        d.createdAt ≤ k.createdAt) ∧
      (∀ r ∈ redditPruneKept store, r ∈ store)) ∧
    (∀ (now : Int) (store : List YTInteraction),
      (∀ r ∈ ytPruneKept now store, now - 14 * 24 * 60 * 60 * 1000 ≤ r.createdAt) ∧
      (∀ r ∈ store, r.createdAt < now - 14 * 24 * 60 * 60 * 1000 →
        r ∉ ytPruneKept now store)) := by
  constructor
  · intro store
    refine ⟨?_, ?_, ?_⟩
    · rw [redditPruneKept, List.length_take]
      exact min_le_left _ _
    · intro d hd k hk
      exact sortDescBy_take_drop (fun r => r.createdAt) store 100 hk hd
    · intro r hr
      have h1 : r ∈ sortDescBy (fun r => r.createdAt) store :=
        List.take_subset _ _ hr
      rw [sortDescBy, List.mem_insertionSort] at h1
      exact h1
  · intro now store
    constructor
    · intro r hr
      rw [ytPruneKept, List.mem_filter] at hr
      have := hr.2
      simp only [decide_eq_true_eq] at this
      omega
    · intro r hr hlt hmem
      rw [ytPruneKept, List.mem_filter] at hmem
      have := hmem.2
      simp only [decide_eq_true_eq] at this
      omega

theorem prune_retention_bounds_witness :
    (redditPruneKept pruneStore).length ≤ 100 ∧
    ({ id := "r", postId := "p", createdAt := 0 } : RedditInteraction).createdAt ≤
      ({ id := "r", postId := "p", createdAt := 100 } : RedditInteraction).createdAt ∧
    ((0 : Int) - 14 * 24 * 60 * 60 * 1000 ≤
      ({ id := "y", commentId := "c", createdAt := -5 } : YTInteraction).createdAt) :=
  ⟨(prune_retention_bounds.1 pruneStore).1,
   (prune_retention_bounds.1 pruneStore).2.1 _ (by decide) _ (by decide),
   (prune_retention_bounds.2 0 [{ id := "y", commentId := "c", createdAt := -5 }]).1 _
     (by decide)⟩

/-- Claim C1 (amended): the Reddit eligibility filter excludes every
candidate authored by the credentials' username, regardless of engagement.
(The YouTube pipeline applies no such check; see the counterexample.) -/
theorem redditEligible_no_self_reply
    (posts : List RedditPost) (repliedIds : List String)
    (minimumUpvotes : Int) (username : String) :
    ∀ p ∈ redditEligiblePosts posts repliedIds minimumUpvotes username,
      p.author ≠ username := by
  intro p hp
  rw [redditEligiblePosts, List.mem_filter] at hp
  have h := hp.2
  simp only [Bool.and_eq_true, bne_iff_ne, decide_eq_true_eq] at h
  exact h.1.2

theorem redditEligible_no_self_reply_witness :
    samplePost "a" "alice" 20 ∈
      redditEligiblePosts [samplePost "a" "alice" 20] [] 1 "me" ∧
    (samplePost "a" "alice" 20).author ≠ "me" :=
  ⟨by decide,
   redditEligible_no_self_reply [samplePost "a" "alice" 20] [] 1 "me" _ (by decide)⟩

/-- Claim C1 counterexample: the YouTube run's eligibility filtering keeps a
comment authored by the account's own channel (`UC1`), selects it, replies
to it and records it — the run answers `replied := true` with the selected
author being the account's own channel id. -/
theorem ytRun_replies_to_own_channel_comment :
    ((ytSelfEnv.account.bind fun a => a.youtubeCredentials).bind fun c => c.channelId)
        = some "UC1" ∧
    (sampleComment "c1" "UC1" 12).authorChannelId = "UC1" ∧
    sampleComment "c1" "UC1" 12 ∈ ytEligibleComments 5 [] [sampleComment "c1" "UC1" 12] ∧
    (ytRun ytSelfEnv).replied = some true ∧
    (ytRun ytSelfEnv).trace.selectedAuthorId = some "UC1" ∧
    (ytRun ytSelfEnv).trace.publishedOk = true ∧
    (ytRun ytSelfEnv).trace.storedReply = some "a reply" := by decide

/-- Claim C4 (amended): raising the YouTube likes threshold never grows the
eligible set, for any thresholds; raising the Reddit upvote threshold never
grows the eligible set provided the lower threshold is at least 1 (a
configured 0 is falsy and replaced by the default 10, breaking monotonicity
at 0; see the counterexample). -/
theorem threshold_monotone :
    (∀ (posts : List RedditPost) (repliedIds : List String) (username : String)
        (X Y : Int), 1 ≤ X → X ≤ Y →
      (redditEligiblePosts posts repliedIds Y username).length ≤
        (redditEligiblePosts posts repliedIds X username).length) ∧
    (∀ (comments : List YouTubeComment) (repliedIds : List String) (X Y : Int),
        X ≤ Y →
      (ytEligibleComments Y repliedIds comments).length ≤
        (ytEligibleComments X repliedIds comments).length) := by
  constructor
  · intro posts repliedIds username X Y hx hxy
    unfold redditEligiblePosts
    refine (List.monotone_filter_right posts ?_).length_le
    intro p hp
    simp only [Bool.and_eq_true, decide_eq_true_eq] at hp ⊢
    have hxne : ¬ X = 0 := by omega
    have hyne : ¬ Y = 0 := by omega
    rw [if_neg hyne] at hp
    rw [if_neg hxne]
    exact ⟨⟨⟨hp.1.1.1, le_trans hxy hp.1.1.2⟩, hp.1.2⟩, hp.2⟩
  · intro comments repliedIds X Y hxy
    unfold ytEligibleComments ytUnrepliedFilter ytLikesFilter
    rw [List.filter_filter, List.filter_filter]
    refine (List.monotone_filter_right comments ?_).length_le
    intro c hc
    simp only [Bool.and_eq_true, decide_eq_true_eq] at hc ⊢
    exact ⟨hc.1, le_trans hxy hc.2⟩

theorem threshold_monotone_witness :
    ((1 : Int) ≤ 1 ∧ (1 : Int) ≤ 5 ∧
      (redditEligiblePosts [samplePost "a" "alice" 3] [] 5 "me").length ≤
        (redditEligiblePosts [samplePost "a" "alice" 3] [] 1 "me").length) ∧
    ((2 : Int) ≤ 7 ∧
      (ytEligibleComments 7 [] [sampleComment "c1" "UC_fan" 4]).length ≤
        (ytEligibleComments 2 [] [sampleComment "c1" "UC_fan" 4]).length) :=
  ⟨⟨by decide, by decide,
    threshold_monotone.1 [samplePost "a" "alice" 3] [] "me" 1 5 (by decide) (by decide)⟩,
   ⟨by decide,
    threshold_monotone.2 [sampleComment "c1" "UC_fan" 4] [] 2 7 (by decide)⟩⟩

/-- Claim C4 counterexample: raising the configured Reddit minimum upvotes
from 0 to 1 grows the eligible set, because `minimumUpvotes || 10` treats
the configured 0 as falsy and applies the default threshold 10 instead. -/
theorem redditEligible_threshold_monotonicity_fails :
    (redditEligiblePosts [samplePost "a" "alice" 1] [] 0 "me").length <
      (redditEligiblePosts [samplePost "a" "alice" 1] [] 1 "me").length := by decide

/-- Claim C7: every reply the generator accepts has length at most 500, and
in both runs any text handed to the publish call or written to the
interaction store is such a generator result, hence also at most 500
characters long. -/
theorem reply_length_bounded :
    (∀ (llmHttp : Option LLMResp) (s : String),
      generateReplyWithLLM llmHttp = some s → s.length ≤ 500) ∧
    (∀ (env : RedditEnv) (s : String),
      ((redditRun env).trace.publishedText = some s → s.length ≤ 500) ∧
      ((redditRun env).trace.storedReply = some s → s.length ≤ 500)) ∧
    (∀ (env : YTEnv) (s : String),
      ((ytRun env).trace.publishedText = some s → s.length ≤ 500) ∧
      ((ytRun env).trace.storedReply = some s → s.length ≤ 500)) := by
  refine ⟨generateReply_length_le, ?_, ?_⟩
  · intro env s
    have h := redditRun_inv env
    unfold redditInv at h
    obtain ⟨-, h1, h2, -⟩ := h
    exact ⟨fun hp => generateReply_length_le _ _ (h1 s hp),
           fun hp => generateReply_length_le _ _ (h2 s hp)⟩
  · intro env s
    have h := ytRun_inv env
    unfold ytInv at h
    obtain ⟨-, h1, h2⟩ := h
    exact ⟨fun hp => generateReply_length_le _ _ (h1 s hp),
           fun hp => generateReply_length_le _ _ (h2 s hp)⟩

theorem reply_length_bounded_witness :
    (generateReplyWithLLM (some ({ content := some "  a reply  " } : LLMResp)) = some "a reply" ∧
      ("a reply" : String).length ≤ 500) ∧
    ((redditRun redditHappyEnv).trace.publishedText = some "a reply" ∧
      ("a reply" : String).length ≤ 500) ∧
    ((ytRun ytHappyEnv).trace.storedReply = some "a reply" ∧
      ("a reply" : String).length ≤ 500) :=
  ⟨⟨by decide, reply_length_bounded.1 (some ({ content := some "  a reply  " } : LLMResp)) "a reply" (by decide)⟩,
   ⟨by decide, (reply_length_bounded.2.1 redditHappyEnv "a reply").1 (by decide)⟩,
   ⟨by decide, (reply_length_bounded.2.2 ytHappyEnv "a reply").2 (by decide)⟩⟩

/-- Claim C2 (amended): in the Reddit run, when the publish step succeeds
and the interaction-store write throws, the run still answers HTTP 200 with
`replied := true` and appends a warning log entry; no exception escapes.
(The YouTube run lacks the local try/catch; see the counterexample.) -/
theorem redditRun_store_failure_still_replies (env : RedditEnv)
    (hpub : (redditRun env).trace.publishedOk = true)
    (hstore : env.storeOk = false) :
    (redditRun env).status = 200 ∧ (redditRun env).replied = some true ∧
      ("warning", "Comment posted but failed to record in database") ∈
        (redditRun env).trace.logs := by
  have h := redditRun_inv env
  unfold redditInv at h
  obtain ⟨-, -, -, h4⟩ := h
  obtain ⟨ha, hb, hc⟩ := h4 hpub
  exact ⟨ha, hb, hc hstore⟩

theorem redditRun_store_failure_still_replies_witness :
    ((redditRun redditStoreFailEnv).trace.publishedOk = true ∧
      redditStoreFailEnv.storeOk = false) ∧
    ((redditRun redditStoreFailEnv).status = 200 ∧
      (redditRun redditStoreFailEnv).replied = some true ∧
      ("warning", "Comment posted but failed to record in database") ∈
        (redditRun redditStoreFailEnv).trace.logs) :=
  ⟨⟨by decide, by decide⟩,
   redditRun_store_failure_still_replies redditStoreFailEnv (by decide) (by decide)⟩

/-- Claim C2 counterexample: in the YouTube run, with the publish call
succeeding and the interaction-store write throwing, the route answers
HTTP 500 with no `replied` field and appends no warning log entry — the
storage exception escapes to the route's catch-all. -/
theorem ytRun_store_failure_returns_500 :
    (ytRun ytStoreFailEnv).trace.publishedOk = true ∧
    ytStoreFailEnv.storeOk = false ∧
    (ytRun ytStoreFailEnv).status = 500 ∧
    (ytRun ytStoreFailEnv).replied = none ∧
    (ytRun ytStoreFailEnv).trace.logs.all (fun l => l.1 ≠ "warning") = true := by decide

/-- Claim C3 (amended): a Reddit run request without the correct cron-secret
header is answered 401 when no session exists and 404 when the session user
does not own the account; in both cases no log is appended and no pipeline
stage runs (the trace stays empty). The YouTube run route performs no such
check at all; see the counterexample. -/
theorem redditRun_noncron_requires_auth (env : RedditEnv)
    (hid : env.accountIdPresent = true)
    (hcron : isCronCall env.cronHeader env.cronSecretEnv = false) :
    (env.session = none →
      redditRun env = { status := 401, replied := none, trace := {} }) ∧
    (∀ uid acct, env.session = some uid → env.account = some acct →
      acct.userId ≠ uid →
      redditRun env = { status := 404, replied := none, trace := {} }) := by
  constructor
  · intro hs
    simp [redditRun, hid, hcron, hs]
  · intro uid acct hs hacct hne
    have hbeq : (acct.userId == uid) = false := by simp [hne]
    simp [redditRun, hid, hcron, hs, hacct, hbeq]

theorem redditRun_noncron_requires_auth_witness :
    (redditUserEnv.accountIdPresent = true ∧
      isCronCall redditUserEnv.cronHeader redditUserEnv.cronSecretEnv = false ∧
      redditUserEnv.session = none) ∧
    redditRun redditUserEnv = { status := 401, replied := none, trace := {} } :=
  ⟨⟨by decide, by decide, by decide⟩,
   (redditRun_noncron_requires_auth redditUserEnv (by decide) (by decide)).1 (by decide)⟩

/-- Claim C3 counterexample: the YouTube run route serves a request that
carries neither the cron-secret header nor any session, runs the full
pipeline and replies — no authorization error is returned. -/
theorem ytRun_serves_unauthenticated_request :
    ytHappyEnv.cronHeader = none ∧ ytHappyEnv.session = none ∧
    (ytRun ytHappyEnv).status = 200 ∧ (ytRun ytHappyEnv).replied = some true ∧
    (ytRun ytHappyEnv).trace.fetchCalled = true ∧
    (ytRun ytHappyEnv).trace.publishedOk = true := by decide

/-- Claim C5 (amended): the YouTube refresh step fails immediately (no
network call, no token) whenever the refresh token is absent, and the run
then answers 401 before any content fetch. The Reddit refresh step does so
only when the stored expiry is also absent or within five minutes; with a
still-valid access token it returns that token and the run proceeds (see
the counterexample). -/
theorem refresh_disconnected_behavior :
    (∀ (now : Int) (c : YTCredsInput) (tokenHttp : Option GoogleTokenResp),
      c.refreshToken = none →
      ytRefreshTokenIfNeeded now c tokenHttp =
        { result := none, networkCalled := false }) ∧
    (∀ (now : Int) (c : RedditCredsInput) (tokenHttp : Option OAuthTokenResp),
      c.refreshToken = none → tokenStillValid now c.tokenExpiresAt = false →
      redditRefreshTokenIfNeeded now c tokenHttp =
        { result := .err .noRefreshToken, networkCalled := false, persisted := none }) ∧
    (∀ (env : YTEnv) (acct : YTAccountRow) (creds : YTCredsRow)
        (orc : OpenRouterCredsRow) (tok ch k m : String),
      env.accountIdPresent = true → env.account = some acct →
      acct.youtubeCredentials = some creds → creds.accessToken = some tok →
      creds.channelId = some ch → acct.openRouterCredentials = some orc →
      orc.apiKey = some k → orc.selectedModel = some m →
      creds.refreshToken = none →
      (ytRun env).status = 401 ∧ (ytRun env).trace.fetchCalled = false ∧
        (ytRun env).trace.refreshHttpCalled = false) := by
  refine ⟨?_, ?_, ?_⟩
  · intro now c tokenHttp hrt
    cases hat : c.accessToken <;> simp [ytRefreshTokenIfNeeded, hat, hrt]
  · intro now c tokenHttp hrt hvalid
    simp [redditRefreshTokenIfNeeded, hvalid, redditRefreshViaNetwork, hrt]
  · intro env acct creds orc tok ch k m hid hacct hcreds htok hch horc hk hm hrt
    refine ⟨?_, ?_, ?_⟩ <;>
      simp [ytRun, hid, hacct, ytRunValidate, hcreds, htok, hch, horc, hk, hm,
        ytRunToken, ytRefreshTokenIfNeeded, hrt]

theorem refresh_disconnected_behavior_witness :
    (ytCredsNoRefreshRow.refreshToken = none ∧
      ytRefreshTokenIfNeeded 0
        { clientId := "cid", clientSecret := "sec", accessToken := some "tok",
          refreshToken := none, tokenExpiresAt := some 1000000000 } none =
        { result := none, networkCalled := false }) ∧
    (redditRefreshTokenIfNeeded 5
        { clientId := "cid", clientSecret := "sec", accessToken := "tok",
          refreshToken := none, tokenExpiresAt := none } none =
      { result := .err .noRefreshToken, networkCalled := false, persisted := none }) ∧
    ((ytRun ytNoRefreshEnv).status = 401 ∧
      (ytRun ytNoRefreshEnv).trace.fetchCalled = false ∧
      (ytRun ytNoRefreshEnv).trace.refreshHttpCalled = false) :=
  ⟨⟨by decide,
    refresh_disconnected_behavior.1 0
      { clientId := "cid", clientSecret := "sec", accessToken := some "tok",
        refreshToken := none, tokenExpiresAt := some 1000000000 } none (by decide)⟩,
   refresh_disconnected_behavior.2.1 5
     { clientId := "cid", clientSecret := "sec", accessToken := "tok",
       refreshToken := none, tokenExpiresAt := none } none (by decide) (by decide),
   refresh_disconnected_behavior.2.2 ytNoRefreshEnv
     { ytAcctOk with youtubeCredentials := some ytCredsNoRefreshRow }
     ytCredsNoRefreshRow orcRow "tok" "UC1" "key" "m"
     (by decide) (by decide) (by decide) (by decide) (by decide) (by decide)
     (by decide) (by decide) (by decide)⟩

/-- Claim C5 counterexample: Reddit credentials with no refresh token but a
still-valid access token do not fail — `refreshTokenIfNeeded` returns the
stored token without any network call, and the run proceeds to the content
fetch and completes, rather than ending 401 before the fetch. -/
theorem redditRefresh_succeeds_without_refresh_token :
    credsNoRefresh.refreshToken = none ∧
    redditRefreshTokenIfNeeded 0 credsNoRefresh none =
      { result := .ok "tok", networkCalled := false, persisted := none } ∧
    (redditRun redditNoRefreshEnv).trace.fetchCalled = true ∧
    (redditRun redditNoRefreshEnv).status = 200 ∧
    (redditRun redditNoRefreshEnv).replied = some true := by decide

/-- Claim C6: whenever the stored token expiry lies more than five minutes
past the current time (with access and refresh tokens present), both
platforms' refresh steps make no network call, return the stored access
token unchanged, and write nothing back to the credentials row (the Reddit
step persists nothing, and the YouTube run's conditional credentials update
never fires because the token is unchanged). -/
theorem token_reuse_window :
    (∀ (now : Int) (c : RedditCredsInput) (tokenHttp : Option OAuthTokenResp)
        (t : Int),
      c.tokenExpiresAt = some t → now + 5 * 60 * 1000 < t →
      redditRefreshTokenIfNeeded now c tokenHttp =
        { result := .ok c.accessToken, networkCalled := false, persisted := none }) ∧
    (∀ (now : Int) (c : YTCredsInput) (tokenHttp : Option GoogleTokenResp)
        (tok rt : String) (t : Int),
      c.accessToken = some tok → c.refreshToken = some rt →
      c.tokenExpiresAt = some t → now + 5 * 60 * 1000 < t →
      ytRefreshTokenIfNeeded now c tokenHttp =
        { result := some { accessToken := tok, refreshToken := rt, expiresAt := t },
          networkCalled := false }) ∧
    (∀ (env : YTEnv) (acct : YTAccountRow) (creds : YTCredsRow)
        (tok rt : String) (texp : Int),
      env.account = some acct → acct.youtubeCredentials = some creds →
      creds.accessToken = some tok → creds.refreshToken = some rt →
      creds.tokenExpiresAt = some texp → env.now + 5 * 60 * 1000 < texp →
      (ytRun env).trace.credsUpdated = false) := by
  refine ⟨?_, ?_, ?_⟩
  · intro now c tokenHttp t hexp hlt
    simp [redditRefreshTokenIfNeeded, tokenStillValid, hexp, hlt]
    intro hc
    exfalso
    omega
  · intro now c tokenHttp tok rt t hat hrt hexp hlt
    simp [ytRefreshTokenIfNeeded, hat, hrt, hexp, hlt]
    intro hc
    exfalso
    omega
  · intro env acct creds tok rt texp hacct hcreds htok hrt hexp hlt
    cases hid : env.accountIdPresent with
    | false => simp [ytRun, hid]
    | true =>
      simp only [ytRun, hid, hacct, Bool.not_true, Bool.false_eq_true, if_false]
      simp only [ytRunValidate, hcreds, htok]
      cases hch : creds.channelId with
      | none => simp [hch, err400log]
      | some ch =>
        cases horc : acct.openRouterCredentials with
        | none => simp [horc, err400log]
        | some orc =>
          simp only [horc]
          cases hk : orc.apiKey with
          | none => simp [hk, err400log]
          | some k =>
            simp only [hk]
            cases hm : orc.selectedModel with
            | none => simp [hm, err400log]
            | some m =>
              simp only [hm]
              simp only [ytRunToken, ytRefreshTokenIfNeeded, htok, hrt, hexp,
                if_pos hlt]
              simp [beq_self_eq_true, ytRunFetch_credsUpd]

theorem token_reuse_window_witness :
    (redditRefreshTokenIfNeeded 0
        { clientId := "cid", clientSecret := "sec", accessToken := "tok",
          refreshToken := some "rtok", tokenExpiresAt := some 1000000000 } none =
      { result := .ok "tok", networkCalled := false, persisted := none }) ∧
    (ytRefreshTokenIfNeeded 0
        { clientId := "cid", clientSecret := "sec", accessToken := some "tok",
          refreshToken := some "rtok", tokenExpiresAt := some 1000000000 } none =
      { result := some { accessToken := "tok", refreshToken := "rtok",
                          expiresAt := 1000000000 },
        networkCalled := false }) ∧
    (ytRun ytHappyEnv).trace.credsUpdated = false :=
  ⟨token_reuse_window.1 0
     { clientId := "cid", clientSecret := "sec", accessToken := "tok",
       refreshToken := some "rtok", tokenExpiresAt := some 1000000000 } none
     1000000000 (by decide) (by decide),
   token_reuse_window.2.1 0
     { clientId := "cid", clientSecret := "sec", accessToken := some "tok",
       refreshToken := some "rtok", tokenExpiresAt := some 1000000000 } none
     "tok" "rtok" 1000000000 (by decide) (by decide) (by decide) (by decide),
   token_reuse_window.2.2 ytHappyEnv ytAcctOk ytCredsOk "tok" "rtok" 1000000000
     (by decide) (by decide) (by decide) (by decide) (by decide) (by decide)⟩

/-- Claim C10 counterexample: a run request for an account whose OAuth
credentials are missing is answered HTTP 400, not 401 as the claim states. -/
theorem redditRun_missing_oauth_returns_400_not_401 :
    (redditNoOAuthEnv.account.map fun a => a.redditCredentials) = some none ∧
    (redditRun redditNoOAuthEnv).status = 400 ∧
    (redditRun redditNoOAuthEnv).status ≠ 401 := by decide

theorem redditRunRecord_errInv (env : RedditEnv) (rep : String) (t : RunTrace)
    (hgen : generateReplyWithLLM env.llmHttp = some rep)
    (hpub : env.publishHttp ≠ none)
    (h5 : t.fetchCalled = true → env.searchHttp ≠ none) :
    redditErrInv env (redditRunRecord env rep t) := by
  unfold redditErrInv redditRunRecord
  cases hs : env.storeOk with
  | true =>
    simp only [hs, if_true]
    refine ⟨fun hf hn => absurd hn (h5 hf), fun _ hn => ?_,
            fun _ hn => absurd hn hpub⟩
    rw [hgen] at hn
    cases hn
  | false =>
    simp only [hs, Bool.false_eq_true, if_false]
    refine ⟨fun hf hn => absurd hn (h5 hf), fun _ hn => ?_,
            fun _ hn => absurd hn hpub⟩
    rw [hgen] at hn
    cases hn

theorem redditRunPublish_errInv (env : RedditEnv) (rep : String) (t : RunTrace)
    (hgen : generateReplyWithLLM env.llmHttp = some rep)
    (h5 : t.fetchCalled = true → env.searchHttp ≠ none) :
    redditErrInv env (redditRunPublish env rep t) := by
  cases hp : env.publishHttp with
  | none =>
    simp only [redditRunPublish, hp]
    exact ⟨fun _ _ => rfl, fun _ _ => rfl, fun _ _ => rfl⟩
  | some cid =>
    simp only [redditRunPublish, hp]
    exact redditRunRecord_errInv env rep _ hgen
      (fun h => by rw [hp] at h; cases h) h5

theorem redditRunGenerate_errInv (env : RedditEnv) (t : RunTrace)
    (h5 : t.fetchCalled = true → env.searchHttp ≠ none) :
    redditErrInv env (redditRunGenerate env t) := by
  cases hg : generateReplyWithLLM env.llmHttp with
  | none =>
    simp only [redditRunGenerate, hg]
    exact ⟨fun _ _ => rfl, fun _ _ => rfl, fun _ _ => rfl⟩
  | some rep =>
    simp only [redditRunGenerate, hg]
    exact redditRunPublish_errInv env rep _ hg h5

theorem redditRunFetchResults_errInv (env : RedditEnv) (cfg : RedditConfigRow)
    (creds : RedditCredsRow) (posts : List RedditPost) (t : RunTrace)
    (h5 : t.fetchCalled = true → env.searchHttp ≠ none)
    (hlc : t.llmCalled = false) (hpc : t.publishCalled = false) :
    redditErrInv env (redditRunFetchResults env cfg creds posts t) := by
  simp only [redditRunFetchResults]
  split
  · refine ⟨?_, ?_, ?_⟩
    · intro hf hn
      exact absurd hn (h5 hf)
    · intro hl _
      exact absurd (show t.llmCalled = true from hl) (by simp [hlc])
    · intro hp _
      exact absurd (show t.publishCalled = true from hp) (by simp [hpc])
  · split
    · refine ⟨?_, ?_, ?_⟩
      · intro hf hn
        exact absurd hn (h5 hf)
      · intro hl _
        exact absurd (show t.llmCalled = true from hl) (by simp [hlc])
      · intro hp _
        exact absurd (show t.publishCalled = true from hp) (by simp [hpc])
    · exact redditRunGenerate_errInv env _ h5

theorem redditRunSearch_errInv (env : RedditEnv) (cfg : RedditConfigRow)
    (creds : RedditCredsRow) (t : RunTrace)
    (hfc : t.fetchCalled = false)
    (hlc : t.llmCalled = false) (hpc : t.publishCalled = false) :
    redditErrInv env (redditRunSearch env cfg creds t) := by
  simp only [redditRunSearch]
  split
  · exact redditRunFetchResults_errInv env cfg creds [] t
      (fun h => absurd (show t.fetchCalled = true from h) (by simp [hfc]))
      hlc hpc
  · split
    · exact ⟨fun _ _ => rfl, fun _ _ => rfl, fun _ _ => rfl⟩
    · next posts heq =>
      exact redditRunFetchResults_errInv env cfg creds posts _
        (fun _ hn => by rw [heq] at hn; cases hn) hlc hpc

theorem redditRunToken_errInv (env : RedditEnv) (creds : RedditCredsRow)
    (cfg : RedditConfigRow) (token : String) :
    redditErrInv env (redditRunToken env creds cfg token) := by
  simp only [redditRunToken]
  split
  · refine ⟨?_, ?_, ?_⟩ <;> (intro h; exact absurd (show false = true from h) (by simp))
  · exact redditRunSearch_errInv env cfg creds _ rfl rfl rfl

theorem err400log_errInvR (env : RedditEnv) (msg : String) :
    redditErrInv env (err400log msg) := by
  refine ⟨?_, ?_, ?_⟩ <;>
    (intro h; exact absurd (show false = true from h) (by simp))

theorem redditRunValidate_errInv (env : RedditEnv) (acct : RedditAccountRow) :
    redditErrInv env (redditRunValidate env acct) := by
  simp only [redditRunValidate]
  repeat' split
  all_goals first
    | exact err400log_errInvR env _
    | exact redditRunToken_errInv env _ _ _

theorem redditRun_errInv (env : RedditEnv) : redditErrInv env (redditRun env) := by
  simp only [redditRun]
  repeat' split
  all_goals first
    | exact redditRunValidate_errInv env _
    | (refine ⟨?_, ?_, ?_⟩ <;>
        (intro h; exact absurd (show false = true from h) (by simp)))

theorem ytRunRecord_errInv (env : YTEnv) (rep : String) (t : RunTrace)
    (hgen : generateReplyWithLLM env.llmHttp = some rep)
    (hpub : env.publishHttp ≠ none)
    (h4 : t.fetchCalled = true → env.videosHttp ≠ none) :
    ytErrInv env (ytRunRecord env rep t) := by
  unfold ytErrInv ytRunRecord
  cases hs : env.storeOk with
  | true =>
    simp only [hs, if_true]
    refine ⟨fun hf hn => absurd hn (h4 hf), fun _ hn => ?_,
            fun _ hn => absurd hn hpub⟩
    rw [hgen] at hn
    cases hn
  | false =>
    simp only [hs, Bool.false_eq_true, if_false]
    refine ⟨fun hf hn => absurd hn (h4 hf), fun _ _ => trivial, fun _ _ => trivial⟩

theorem ytRunPublish_errInv (env : YTEnv) (rep : String) (t : RunTrace)
    (hgen : generateReplyWithLLM env.llmHttp = some rep)
    (h4 : t.fetchCalled = true → env.videosHttp ≠ none) :
    ytErrInv env (ytRunPublish env rep t) := by
  cases hp : env.publishHttp with
  | none =>
    simp only [ytRunPublish, hp]
    exact ⟨fun _ _ => rfl, fun _ _ => rfl, fun _ _ => rfl⟩
  | some rid =>
    simp only [ytRunPublish, hp]
    exact ytRunRecord_errInv env rep _ hgen
      (fun h => by rw [hp] at h; cases h) h4

theorem ytRunGenerate_errInv (env : YTEnv) (t : RunTrace)
    (h4 : t.fetchCalled = true → env.videosHttp ≠ none) :
    ytErrInv env (ytRunGenerate env t) := by
  cases hg : generateReplyWithLLM env.llmHttp with
  | none =>
    simp only [ytRunGenerate, hg]
    exact ⟨fun _ _ => rfl, fun _ _ => rfl, fun _ _ => rfl⟩
  | some rep =>
    simp only [ytRunGenerate, hg]
    exact ytRunPublish_errInv env rep _ hg h4

theorem ytRunComments_errInv (env : YTEnv) (m : Int) (videos : List YTVideoFetch)
    (t : RunTrace)
    (h4 : t.fetchCalled = true → env.videosHttp ≠ none)
    (hlc : t.llmCalled = false) (hpc : t.publishCalled = false) :
    ytErrInv env (ytRunComments env m videos t) := by
  simp only [ytRunComments]
  repeat' split
  all_goals first
    | exact ytRunGenerate_errInv env _ h4
    | exact ⟨fun _ _ => rfl, fun _ _ => rfl, fun _ _ => rfl⟩
    | (refine ⟨fun hf hn => absurd hn (h4 hf), fun hl _ => ?_, fun hp _ => ?_⟩
       · exact absurd (show t.llmCalled = true from hl) (by simp [hlc])
       · exact absurd (show t.publishCalled = true from hp) (by simp [hpc]))

theorem ytRunFetch_errInv (env : YTEnv) (m : Int) (t : RunTrace)
    (hlc : t.llmCalled = false) (hpc : t.publishCalled = false) :
    ytErrInv env (ytRunFetch env m t) := by
  simp only [ytRunFetch]
  split
  · exact ⟨fun _ _ => rfl, fun _ _ => rfl, fun _ _ => rfl⟩
  · next videos heq =>
    split
    · refine ⟨fun _ hn => ?_, fun hl _ => ?_, fun hp _ => ?_⟩
      · rw [heq] at hn; cases hn
      · exact absurd (show t.llmCalled = true from hl) (by simp [hlc])
      · exact absurd (show t.publishCalled = true from hp) (by simp [hpc])
    · exact ytRunComments_errInv env _ videos _
        (fun _ hn => by rw [heq] at hn; cases hn) hlc hpc

theorem ytRunToken_errInv (env : YTEnv) (creds : YTCredsRow)
    (ytCfg : Option YTConfigRow) (tokenStr : String) :
    ytErrInv env (ytRunToken env creds ytCfg tokenStr) := by
  simp only [ytRunToken]
  repeat' split
  all_goals first
    | exact ytRunFetch_errInv env _ _ (by simp) (by simp)
    | (refine ⟨?_, ?_, ?_⟩ <;>
        (intro h; exact absurd (show false = true from h) (by simp)))

theorem err400log_errInvY (env : YTEnv) (msg : String) :
    ytErrInv env (err400log msg) := by
  refine ⟨?_, ?_, ?_⟩ <;>
    (intro h; exact absurd (show false = true from h) (by simp))

theorem ytRunValidate_errInv (env : YTEnv) (acct : YTAccountRow) :
    ytErrInv env (ytRunValidate env acct) := by
  simp only [ytRunValidate]
  repeat' split
  all_goals first
    | exact err400log_errInvY env _
    | exact ytRunToken_errInv env _ _ _

theorem ytRun_errInv (env : YTEnv) : ytErrInv env (ytRun env) := by
  simp only [ytRun]
  repeat' split
  all_goals first
    | exact ytRunValidate_errInv env _
    | (refine ⟨?_, ?_, ?_⟩ <;>
        (intro h; exact absurd (show false = true from h) (by simp)))

/-- Claim C10 (amended): the HTTP status reflects the outcome class as the
code implements it. Any completed run — a body carrying a `replied` field,
including the no-eligible-content outcome — is answered 200. Missing or
invalid configuration is answered 400 (missing Reddit config row, blank
keywords, missing LLM API key), and a missing OAuth connection is likewise
answered 400 — not 401 as claimed (see the counterexample). 401 is answered
when the non-cron request has no session (Reddit) or when the token refresh
fails. Platform-read, LLM and publish failures are answered 500 on both
routes. -/
theorem status_code_mapping :
    (∀ (env : RedditEnv) (b : Bool),
      (redditRun env).replied = some b → (redditRun env).status = 200) ∧
    (∀ (env : YTEnv) (b : Bool),
      (ytRun env).replied = some b → (ytRun env).status = 200) ∧
    (∀ (env : RedditEnv) (acct : RedditAccountRow),
      env.accountIdPresent = true →
      isCronCall env.cronHeader env.cronSecretEnv = true →
      env.account = some acct → acct.redditCredentials = none →
      (redditRun env).status = 400) ∧
    (∀ (env : YTEnv) (acct : YTAccountRow),
      env.accountIdPresent = true → env.account = some acct →
      acct.youtubeCredentials = none →
      (ytRun env).status = 400) ∧
    (∀ (env : RedditEnv) (acct : RedditAccountRow) (creds : RedditCredsRow)
        (tok : String),
      env.accountIdPresent = true →
      isCronCall env.cronHeader env.cronSecretEnv = true →
      env.account = some acct → acct.redditCredentials = some creds →
      creds.accessToken = some tok → acct.redditConfig = none →
      (redditRun env).status = 400) ∧
    (∀ (env : RedditEnv) (acct : RedditAccountRow) (creds : RedditCredsRow)
        (cfg : RedditConfigRow) (tok : String),
      env.accountIdPresent = true →
      isCronCall env.cronHeader env.cronSecretEnv = true →
      env.account = some acct → acct.redditCredentials = some creds →
      creds.accessToken = some tok → acct.redditConfig = some cfg →
      (jsTrim cfg.keywords).toList.isEmpty = true →
      (redditRun env).status = 400) ∧
    (∀ (env : YTEnv) (acct : YTAccountRow) (creds : YTCredsRow)
        (orc : OpenRouterCredsRow) (tok ch : String),
      env.accountIdPresent = true → env.account = some acct →
      acct.youtubeCredentials = some creds → creds.accessToken = some tok →
      creds.channelId = some ch → acct.openRouterCredentials = some orc →
      orc.apiKey = none →
      (ytRun env).status = 400) ∧
    (∀ (env : RedditEnv),
      env.accountIdPresent = true →
      isCronCall env.cronHeader env.cronSecretEnv = false →
      env.session = none →
      (redditRun env).status = 401) ∧
    (∀ (env : RedditEnv) (acct : RedditAccountRow) (creds : RedditCredsRow)
        (cfg : RedditConfigRow) (orc : OpenRouterCredsRow) (tok k m : String),
      env.accountIdPresent = true →
      isCronCall env.cronHeader env.cronSecretEnv = true →
      env.account = some acct → acct.redditCredentials = some creds →
      creds.accessToken = some tok → acct.redditConfig = some cfg →
      (jsTrim cfg.keywords).toList.isEmpty = false →
      acct.openRouterCredentials = some orc →
      orc.apiKey = some k → orc.selectedModel = some m →
      tokenStillValid env.now creds.tokenExpiresAt = false →
      env.refreshHttp = none →
      (redditRun env).status = 401) ∧
    (∀ (env : RedditEnv),
      (redditRun env).trace.fetchCalled = true → env.searchHttp = none →
      (redditRun env).status = 500) ∧
    (∀ (env : RedditEnv),
      (redditRun env).trace.llmCalled = true →
      generateReplyWithLLM env.llmHttp = none →
      (redditRun env).status = 500) ∧
    (∀ (env : RedditEnv),
      (redditRun env).trace.publishCalled = true → env.publishHttp = none →
      (redditRun env).status = 500) ∧
    (∀ (env : YTEnv),
      (ytRun env).trace.fetchCalled = true → env.videosHttp = none →
      (ytRun env).status = 500) ∧
    (∀ (env : YTEnv),
      (ytRun env).trace.llmCalled = true →
      generateReplyWithLLM env.llmHttp = none →
      (ytRun env).status = 500) ∧
    (∀ (env : YTEnv),
      (ytRun env).trace.publishCalled = true → env.publishHttp = none →
      (ytRun env).status = 500) := by
  refine ⟨?_, ?_, ?_, ?_, ?_, ?_, ?_, ?_, ?_, ?_, ?_, ?_, ?_, ?_, ?_⟩
  · intro env b h
    have hi := redditRun_inv env
    unfold redditInv at hi
    rcases hi.1 with h0 | h0
    · rw [h] at h0; cases h0
    · exact h0
  · intro env b h
    have hi := ytRun_inv env
    unfold ytInv at hi
    rcases hi.1 with h0 | h0
    · rw [h] at h0; cases h0
    · exact h0
  · intro env acct hid hcron hacct hcreds
    simp [redditRun, hid, hcron, hacct, redditRunValidate, hcreds, err400log]
  · intro env acct hid hacct hcreds
    simp [ytRun, hid, hacct, ytRunValidate, hcreds, err400log]
  · intro env acct creds tok hid hcron hacct hcreds htok hcfg
    simp [redditRun, hid, hcron, hacct, redditRunValidate, hcreds, htok, hcfg,
      err400log]
  · intro env acct creds cfg tok hid hcron hacct hcreds htok hcfg hkey
    have hkey' : (jsTrim cfg.keywords).data = [] := by simpa using hkey
    simp [redditRun, hid, hcron, hacct, redditRunValidate, hcreds, htok, hcfg,
      hkey', err400log]
  · intro env acct creds orc tok ch hid hacct hcreds htok hch horc hk
    simp [ytRun, hid, hacct, ytRunValidate, hcreds, htok, hch, horc, hk,
      err400log]
  · intro env hid hcron hs
    simp [redditRun, hid, hcron, hs]
  · intro env acct creds cfg orc tok k m hid hcron hacct hcreds htok hcfg hkey
      horc hk hm htv hrh
    have hkey' : ¬(jsTrim cfg.keywords).toList = [] := by
      simpa using hkey
    simp only [redditRun, hid, hcron, hacct, Bool.not_true, Bool.false_eq_true,
      if_false, if_true]
    simp only [redditRunValidate, hcreds, htok, hcfg, horc, hk, hm]
    rw [if_neg (by simpa using hkey')]
    simp only [redditRunToken, redditRefreshTokenIfNeeded, htv, Bool.false_eq_true,
      if_false]
    cases href : creds.refreshToken with
    | none => simp [redditRefreshViaNetwork, href]
    | some rt => simp [redditRefreshViaNetwork, href, hrh]
  · intro env
    have hi := redditRun_errInv env
    unfold redditErrInv at hi
    exact hi.1
  · intro env
    have hi := redditRun_errInv env
    unfold redditErrInv at hi
    exact hi.2.1
  · intro env
    have hi := redditRun_errInv env
    unfold redditErrInv at hi
    exact hi.2.2
  · intro env
    have hi := ytRun_errInv env
    unfold ytErrInv at hi
    exact hi.1
  · intro env
    have hi := ytRun_errInv env
    unfold ytErrInv at hi
    exact hi.2.1
  · intro env
    have hi := ytRun_errInv env
    unfold ytErrInv at hi
    exact hi.2.2

theorem status_code_mapping_witness :
    ((redditRun redditHappyEnv).replied = some true ∧
      (redditRun redditHappyEnv).status = 200) ∧
    ((ytRun ytHappyEnv).replied = some true ∧ (ytRun ytHappyEnv).status = 200) ∧
    (redditRun redditNoOAuthEnv).status = 400 ∧
    (ytRun ytNoOAuthEnv).status = 400 ∧
    (redditRun redditNoConfigEnv).status = 400 ∧
    (redditRun redditBlankKeywordsEnv).status = 400 ∧
    (ytRun ytNoApiKeyEnv).status = 400 ∧
    (redditRun redditUserEnv).status = 401 ∧
    (redditRun redditRefreshFailEnv).status = 401 ∧
    (redditRun redditFetchFailEnv).status = 500 ∧
    (redditRun redditLLMFailEnv).status = 500 ∧
    (redditRun redditPublishFailEnv).status = 500 ∧
    (ytRun ytFetchFailEnv).status = 500 ∧
    (ytRun ytLLMFailEnv).status = 500 ∧
    (ytRun ytPublishFailEnv).status = 500 :=
  ⟨⟨by decide, status_code_mapping.1 redditHappyEnv true (by decide)⟩,
   ⟨by decide, status_code_mapping.2.1 ytHappyEnv true (by decide)⟩,
   status_code_mapping.2.2.1 redditNoOAuthEnv
     { redditAcctOk with redditCredentials := none }
     (by decide) (by decide) (by decide) (by decide),
   status_code_mapping.2.2.2.1 ytNoOAuthEnv
     { ytAcctOk with youtubeCredentials := none }
     (by decide) (by decide) (by decide),
   status_code_mapping.2.2.2.2.1 redditNoConfigEnv
     { redditAcctOk with redditConfig := none } redditCredsOk "tok"
     (by decide) (by decide) (by decide) (by decide) (by decide) (by decide),
   status_code_mapping.2.2.2.2.2.1 redditBlankKeywordsEnv
     { redditAcctOk with redditConfig := some redditBlankKeywordsCfg }
     redditCredsOk redditBlankKeywordsCfg "tok"
     (by decide) (by decide) (by decide) (by decide) (by decide) (by decide)
     (by decide),
   status_code_mapping.2.2.2.2.2.2.1 ytNoApiKeyEnv
     { ytAcctOk with openRouterCredentials := some orcNoKeyRow }
     ytCredsOk orcNoKeyRow "tok" "UC1"
     (by decide) (by decide) (by decide) (by decide) (by decide) (by decide)
     (by decide),
   status_code_mapping.2.2.2.2.2.2.2.1 redditUserEnv
     (by decide) (by decide) (by decide),
   status_code_mapping.2.2.2.2.2.2.2.2.1 redditRefreshFailEnv
     { redditAcctOk with redditCredentials := some redditCredsExpiredRow }
     redditCredsExpiredRow redditCfgOk orcRow "tok" "key" "m"
     (by decide) (by decide) (by decide) (by decide) (by decide) (by decide)
     (by decide) (by decide) (by decide) (by decide) (by decide) (by decide),
   status_code_mapping.2.2.2.2.2.2.2.2.2.1 redditFetchFailEnv
     (by decide) (by decide),
   status_code_mapping.2.2.2.2.2.2.2.2.2.2.1 redditLLMFailEnv
     (by decide) (by decide),
   status_code_mapping.2.2.2.2.2.2.2.2.2.2.2.1 redditPublishFailEnv
     (by decide) (by decide),
   status_code_mapping.2.2.2.2.2.2.2.2.2.2.2.2.1 ytFetchFailEnv
     (by decide) (by decide),
   status_code_mapping.2.2.2.2.2.2.2.2.2.2.2.2.2.1 ytLLMFailEnv
     (by decide) (by decide),
   status_code_mapping.2.2.2.2.2.2.2.2.2.2.2.2.2.2 ytPublishFailEnv
     (by decide) (by decide)⟩
